import Mathlib

/-! Railway ticket booking system: booking and seat inventory.

A shallow embedding of `src/booking.cpp`.  The MySQL database the program talks to is a
record of its tables (lists of rows, in insertion order); every statement the program
sends is a function on that record.  `int` values and `INT` columns are `Int`; the fare,
a `double` that only ever holds `50.0 * numPassengers`, is kept as an `Int` amount;
`string` values and the `DATE`, `VARCHAR` and `ENUM` columns are `String`.  A `DATE`
column holds the day the server reads a string as and an `ENUM` column the label it reads
a string as (`Server.date`, `Server.label`); a date given to a query stands for the day it
is read as.
-/

namespace Railway

/-! ## Data model -/

/-- The class `Train`, which is also a row of the table `trains`. -/
structure Train where
  trainId : Int
  trainName : String
  trainNumber : String
  source : String
  destination : String
  departureTime : String
  arrivalTime : String
  totalSeats : Int
deriving DecidableEq, Repr

/-- The class `Passenger`. -/
structure Passenger where
  passengerId : Int
  passengerName : String
  age : Int
  gender : String
  seatNumber : String
deriving DecidableEq, Repr

/-- The class `Booking`: the nine scalar members and the vector of passengers. -/
structure Booking where
  bookingId : Int
  userId : Int
  trainId : Int
  bookingDate : String
  journeyDate : String
  numPassengers : Int
  totalFare : Int
  bookingStatus : String
  paymentStatus : String
  passengers : List Passenger
deriving DecidableEq, Repr

/-- A row of the table `bookings`, the `DATE` and `ENUM` columns in the spelling in which
`getString` returns them. -/
structure BookingRow where
  booking_id : Int
  user_id : Int
  train_id : Int
  booking_date : String
  journey_date : String
  num_passengers : Int
  total_fare : Int
  booking_status : String
  payment_status : String
deriving DecidableEq, Repr

/-- A row of the table `passengers`, the `ENUM` column `gender` in the spelling in which
`getString` returns it. -/
structure PassengerRow where
  passenger_id : Int
  booking_id : Int
  passenger_name : String
  age : Int
  gender : String
  seat_number : String
deriving DecidableEq, Repr

/-- The database: the three tables the booking code reads and writes, and the
`AUTO_INCREMENT` counters of `bookings` and `passengers` (the id the next inserted row
gets). -/
structure Database where
  trains : List Train
  bookings : List BookingRow
  passengers : List PassengerRow
  nextBookingId : Int
  nextPassengerId : Int
deriving DecidableEq, Repr

/-- The labels of `bookings.booking_status` in the schema at the head of `booking.cpp`. -/
def bookingStatusLabels : List String := ["Confirmed", "Waiting", "Cancelled"]

/-- The labels of `bookings.payment_status` in the schema. -/
def paymentStatusLabels : List String := ["Paid", "Pending"]

/-- The labels of `passengers.gender` in the schema. -/
def genderLabels : List String := ["Male", "Female", "Other"]

/-- The MySQL server, as far as the program depends on it.  The program hands every date,
status and gender to the server as a string (`setString`); the columns are typed (`DATE`,
`ENUM`), so what a column holds, what a query compares and what `getString` returns is the
server's reading of the string, not the string: `date` and `label` are that reading.
`executeUpdate` throws `sql::SQLException` when the server refuses the values it is given
(a foreign key without a parent row, a string that is no date or matches no label, a value
too long or out of range); the program catches the exception in the `catch` block of the
calling method: the three verdicts say which rows are carried out (`true`). -/
structure Server where
  /-- Verdict on `INSERT INTO bookings` of this row (the row as the server reads it). -/
  insertBooking : BookingRow → Bool
  /-- Verdict on `INSERT INTO passengers` of this row (the row as the server reads it). -/
  insertPassenger : PassengerRow → Bool
  /-- Verdict on `UPDATE bookings SET payment_status = ?` with this string for a row the
  statement applies to. -/
  setPaymentStatus : BookingRow → String → Bool
  /-- The day a string stands for where a `DATE` is expected, in the spelling `YYYY-MM-DD`
  in which the server holds and returns it (`2025-4-10` is read as `2025-04-10`). -/
  date : String → String
  /-- The label of an `ENUM` column with the given labels that a string is stored as
  (`confirmed` is stored as `Confirmed`). -/
  label : List String → String → String
  /-- The spelling the server returns for a day is read as that day. -/
  date_date : ∀ s : String, date (date s) = date s
  /-- A label of `booking_status` is stored as itself. -/
  label_bookingStatus : ∀ l ∈ bookingStatusLabels, label bookingStatusLabels l = l
  /-- A label of `payment_status` is stored as itself. -/
  label_paymentStatus : ∀ l ∈ paymentStatusLabels, label paymentStatusLabels l = l
  /-- A label of `gender` is stored as itself. -/
  label_gender : ∀ l ∈ genderLabels, label genderLabels l = l

/-- The fields of a string between its dashes. -/
def dateFields : List Char → List (List Char)
  | [] => [[]]
  | c :: cs =>
    if c = '-' then [] :: dateFields cs
    else
      match dateFields cs with
      | f :: fs => (c :: f) :: fs
      | [] => [[c]]

/-- A field of one character with a zero in front, any other field as it is. -/
def padField : List Char → List Char
  | [c] => ['0', c]
  | cs => cs

/-- The reading of dates of the example server: in a string of three fields joined by
dashes, a month and a day of one character get a zero in front; any other string is left
as it is. -/
def readDate (s : String) : String :=
  match dateFields s.toList with
  | [y, m, d] => String.mk (y ++ '-' :: (padField m ++ '-' :: padField d))
  | _ => s

/-- Whether a string has the shape `YYYY-MM-DD`: four digits, two digits, two digits. -/
def isDate (s : String) : Bool :=
  match s.toList with
  | [y1, y2, y3, y4, '-', m1, m2, '-', d1, d2] =>
    [y1, y2, y3, y4, m1, m2, d1, d2].all Char.isDigit
  | _ => false

/-- A string in lower case, as a list of characters. -/
def lowerChars (s : String) : List Char :=
  s.toList.map Char.toLower

/-- The reading of labels of the example server: the first label that equals the string up
to the case of its letters; a string that matches no label is left as it is. -/
def readLabel (labels : List String) (s : String) : String :=
  match labels.find? (fun l => lowerChars l == lowerChars s) with
  | some l => l
  | none => s

/-- A server for the examples.  It reads dates by `readDate` and labels by `readLabel`, and
it enforces the `DATE` and `ENUM` columns of the schema (MySQL in strict mode) and nothing
else: a booking row is refused when a date has not the shape `YYYY-MM-DD` or a status is
no label, a passenger row when the gender is no label, a payment status when it matches no
label. -/
def schemaServer : Server where
  insertBooking := fun r =>
    bookingStatusLabels.contains r.booking_status && paymentStatusLabels.contains r.payment_status
      && isDate r.booking_date && isDate r.journey_date
  insertPassenger := fun p => genderLabels.contains p.gender
  setPaymentStatus := fun _ s => paymentStatusLabels.contains (readLabel paymentStatusLabels s)
  date := readDate
  label := readLabel
  date_date := by
    have hnil : ∀ cs : List Char, dateFields cs ≠ [] := by
      intro cs
      induction cs with
      | nil => simp [dateFields]
      | cons c cs _ =>
        unfold dateFields
        split
        · simp
        · split <;> simp
    have hfields : ∀ cs : List Char, ∀ f ∈ dateFields cs, '-' ∉ f := by
      intro cs
      induction cs with
      | nil => intro f hf; simp [dateFields] at hf; subst hf; simp
      | cons c cs ih =>
        intro f hf
        unfold dateFields at hf
        split at hf
        · rcases List.mem_cons.mp hf with rfl | hf
          · simp
          · exact ih f hf
        next hc =>
          split at hf
          next g gs hg =>
            rcases List.mem_cons.mp hf with rfl | hf
            · intro hmem
              rcases List.mem_cons.mp hmem with h | h
              · exact hc h.symm
              · exact ih g (by rw [hg]; exact List.mem_cons_self _ _) h
            · exact ih f (by rw [hg]; exact List.mem_cons_of_mem _ hf)
          next hg => exact absurd hg (hnil cs)
    have happend : ∀ a rest : List Char, '-' ∉ a →
        dateFields (a ++ '-' :: rest) = a :: dateFields rest := by
      intro a rest
      induction a with
      | nil => intro _; simp [dateFields]
      | cons c cs ih =>
        intro ha
        have hc : ¬ c = '-' := fun h => ha (h ▸ List.mem_cons_self _ _)
        have hcs : '-' ∉ cs := fun h => ha (List.mem_cons_of_mem _ h)
        have hstep : dateFields (c :: (cs ++ '-' :: rest))
            = match dateFields (cs ++ '-' :: rest) with
              | f :: fs => (c :: f) :: fs
              | [] => [[c]] := by
          simp only [dateFields, if_neg hc]
        show dateFields (c :: (cs ++ '-' :: rest)) = _
        rw [hstep, ih hcs]
    have hself : ∀ a : List Char, '-' ∉ a → dateFields a = [a] := by
      intro a
      induction a with
      | nil => intro _; rfl
      | cons c cs ih =>
        intro ha
        have hc : ¬ c = '-' := fun h => ha (h ▸ List.mem_cons_self _ _)
        have hcs : '-' ∉ cs := fun h => ha (List.mem_cons_of_mem _ h)
        simp only [dateFields, if_neg hc, ih hcs]
    have hpad : ∀ cs : List Char, '-' ∉ cs → '-' ∉ padField cs := by
      intro cs h
      unfold padField
      split
      · intro hm
        simp only [List.mem_cons, List.mem_singleton, List.not_mem_nil, or_false] at hm h
        rcases hm with hm | hm
        · exact absurd hm (by decide)
        · exact h hm
      · exact h
    have hpadpad : ∀ cs : List Char, padField (padField cs) = padField cs := by
      intro cs
      rcases cs with _ | ⟨c, _ | ⟨c2, rest⟩⟩ <;> rfl
    have hread : ∀ (s : String) (y m d : List Char), dateFields s.toList = [y, m, d] →
        readDate s = String.mk (y ++ '-' :: (padField m ++ '-' :: padField d)) := by
      intro s y m d h
      unfold readDate
      rw [h]
    intro s
    by_cases h : ∃ y m d, dateFields s.toList = [y, m, d]
    · obtain ⟨y, m, d, h⟩ := h
      have hy := hfields _ y (by rw [h]; simp)
      have hm := hpad _ (hfields _ m (by rw [h]; simp))
      have hd := hpad _ (hfields _ d (by rw [h]; simp))
      rw [hread s y m d h]
      have h2 : dateFields (String.mk (y ++ '-' :: (padField m ++ '-' :: padField d))).toList
          = [y, padField m, padField d] := by
        show dateFields (y ++ '-' :: (padField m ++ '-' :: padField d)) = _
        rw [happend _ _ hy, happend _ _ hm, hself _ hd]
      rw [hread _ _ _ _ h2, hpadpad, hpadpad]
    · have hs : readDate s = s := by
        unfold readDate
        split
        next y m d h2 => exact absurd ⟨y, m, d, h2⟩ h
        next => rfl
      rw [hs, hs]
  label_bookingStatus := by decide
  label_paymentStatus := by decide
  label_gender := by decide

/-! ## TrainManager -/

/-- `TrainManager::getTrainById`: `SELECT * FROM trains WHERE train_id = ?`, first row. -/
def getTrainById (db : Database) (trainId : Int) : Option Train :=
  (db.trains.filter (fun t => t.trainId == trainId)).head?

/-- The `ON` condition of the join in `getAvailableSeats`:
`t.train_id = b.train_id AND b.journey_date = ? AND b.booking_status = 'Confirmed'`.
`journey_date` is a `DATE` and the parameter a string: the server compares the two as
dates, so the parameter matches the rows of the day it is read as, however it is
spelled.  `booking_status` holds a label, which is compared with the label
`Confirmed`. -/
def joinCondition (srv : Server) (journeyDate : String) (t : Train) (b : BookingRow) : Bool :=
  t.trainId == b.train_id && srv.date b.journey_date == srv.date journeyDate
    && b.booking_status == "Confirmed"

/-- The rows one train contributes to `trains t LEFT JOIN bookings b ON ...`: one row per
matching booking, or a single row with `b` all `NULL` when no booking matches. -/
def joinedRows (srv : Server) (bookings : List BookingRow) (journeyDate : String)
    (t : Train) : List (Train × Option BookingRow) :=
  match bookings.filter (joinCondition srv journeyDate t) with
  | [] => [(t, none)]
  | b :: bs => (b :: bs).map (fun r => (t, some r))

/-- The table `trains t LEFT JOIN bookings b ON ...`. -/
def leftJoin (srv : Server) (db : Database) (journeyDate : String) :
    List (Train × Option BookingRow) :=
  db.trains.flatMap (joinedRows srv db.bookings journeyDate)

/-- SQL `SUM`: `NULL` values are skipped, and the sum of no value at all is `NULL`. -/
def sqlSum : List (Option Int) → Option Int
  | [] => none
  | none :: xs => sqlSum xs
  | some x :: xs =>
    match sqlSum xs with
    | none => some x
    | some s => some (x + s)

/-- SQL `COALESCE(x, d)`. -/
def coalesce (x : Option Int) (d : Int) : Int :=
  match x with
  | some v => v
  | none => d

/-- The distinct values of a `GROUP BY` column, in order of first appearance. -/
def groupKeys : List Int → List Int
  | [] => []
  | k :: ks => k :: (groupKeys ks).filter (fun j => j != k)

/-- The result set of the first query of `getAvailableSeats`:
`SELECT t.total_seats - COALESCE(SUM(b.num_passengers), 0) FROM trains t LEFT JOIN
bookings b ON ... WHERE t.train_id = ? GROUP BY t.train_id`, one value per group. -/
def availableSeatsQuery (srv : Server) (db : Database) (trainId : Int)
    (journeyDate : String) : List Int :=
  let rows := (leftJoin srv db journeyDate).filter (fun r => r.1.trainId == trainId)
  (groupKeys (rows.map (fun r => r.1.trainId))).filterMap (fun k =>
    match rows.filter (fun r => r.1.trainId == k) with
    | [] => none
    | r :: rs =>
      some (r.1.totalSeats
        - coalesce (sqlSum ((r :: rs).map (fun x => x.2.map (fun b => b.num_passengers)))) 0))

/-- The result set of the second query of `getAvailableSeats`:
`SELECT total_seats FROM trains WHERE train_id = ?`. -/
def totalSeatsQuery (db : Database) (trainId : Int) : List Int :=
  (db.trains.filter (fun t => t.trainId == trainId)).map (fun t => t.totalSeats)

/-- `TrainManager::getAvailableSeats`: the first row of the join query if there is one,
otherwise the first row of the query on `trains` alone, otherwise the initial `0`.
`getInt` is taken to return the value of the column as it is. -/
def getAvailableSeats (srv : Server) (db : Database) (trainId : Int) (journeyDate : String) :
    Int :=
  match availableSeatsQuery srv db trainId journeyDate with
  | availableSeats :: _ => availableSeats
  | [] =>
    match totalSeatsQuery db trainId with
    | totalSeats :: _ => totalSeats
    | [] => 0

/-! ## BookingManager -/

/-- What `createBooking` leaves behind: the value it returns, the `Booking` object it was
given by reference (it sets the fare and the id in it), and the database. -/
structure CreateResult where
  returned : Bool
  booking : Booking
  db : Database
deriving DecidableEq, Repr

/-- What `cancelBooking` and `updatePaymentStatus` leave behind: the value returned and the
database. -/
structure UpdateResult where
  returned : Bool
  db : Database
deriving DecidableEq, Repr

/-- `BookingManager::calculateFare`: `baseFare * numPassengers` with `baseFare = 50.0`;
the train id is not used. -/
def calculateFare (_trainId : Int) (numPassengers : Int) : Int :=
  let baseFare : Int := 50
  baseFare * numPassengers

/-- The row `addPassengers` inserts for one passenger: `passenger_id` comes from the
table's counter, the other five columns from the statement's parameters; the `ENUM` column
`gender` holds the label the server reads the string as. -/
def passengerRow (srv : Server) (db : Database) (bookingId : Int) (passenger : Passenger) :
    PassengerRow :=
  { passenger_id := db.nextPassengerId
    booking_id := bookingId
    passenger_name := passenger.passengerName
    age := passenger.age
    gender := srv.label genderLabels passenger.gender
    seat_number := passenger.seatNumber }

/-- `BookingManager::addPassengers`: one `INSERT INTO passengers` per passenger, in order.
The first refused insert throws; the `catch` block returns `false`, and the rows inserted
before it stay (no transaction is opened). -/
def addPassengers (srv : Server) (db : Database) (bookingId : Int) :
    List Passenger → Bool × Database
  | [] => (true, db)
  | passenger :: rest =>
    if srv.insertPassenger (passengerRow srv db bookingId passenger) then
      addPassengers srv
        { db with
          passengers := db.passengers ++ [passengerRow srv db bookingId passenger]
          nextPassengerId := db.nextPassengerId + 1 }
        bookingId rest
    else
      (false, db)

/-- The row `createBooking` inserts: `booking_id` comes from the table's counter, the other
eight columns from the getters of the `Booking` object; the two `DATE` columns hold the
days the server reads the strings as, the two `ENUM` columns the labels it reads them
as. -/
def bookingRow (srv : Server) (db : Database) (booking : Booking) : BookingRow :=
  { booking_id := db.nextBookingId
    user_id := booking.userId
    train_id := booking.trainId
    booking_date := srv.date booking.bookingDate
    journey_date := srv.date booking.journeyDate
    num_passengers := booking.numPassengers
    total_fare := booking.totalFare
    booking_status := srv.label bookingStatusLabels booking.bookingStatus
    payment_status := srv.label paymentStatusLabels booking.paymentStatus }

/-- The part of `createBooking` that follows the call of `getAvailableSeats`, as a function
of the value that call returned: the comparison with `numPassengers`, the fare, the
`INSERT INTO bookings`, `LAST_INSERT_ID()`, and `addPassengers`, whose result is
discarded. -/
def createBookingFrom (srv : Server) (db : Database) (booking : Booking)
    (availableSeats : Int) : CreateResult :=
  if availableSeats < booking.numPassengers then
    { returned := false, booking := booking, db := db }
  else
    let fare := calculateFare booking.trainId booking.numPassengers
    let booking := { booking with totalFare := fare }
    if srv.insertBooking (bookingRow srv db booking) then
      let db1 : Database :=
        { db with
          bookings := db.bookings ++ [bookingRow srv db booking]
          nextBookingId := db.nextBookingId + 1 }
      let booking := { booking with bookingId := db.nextBookingId }
      { returned := true
        booking := booking
        db := (addPassengers srv db1 booking.bookingId booking.passengers).2 }
    else
      { returned := false, booking := booking, db := db }

/-- `BookingManager::createBooking`. -/
def createBooking (srv : Server) (db : Database) (booking : Booking) : CreateResult :=
  createBookingFrom srv db booking (getAvailableSeats srv db booking.trainId booking.journeyDate)

/-- `BookingManager::cancelBooking`:
`UPDATE bookings SET booking_status = 'Cancelled' WHERE booking_id = ?`, then `true`.  The
literal `'Cancelled'` is a label of the column, so the server has no ground to refuse the
statement and the `catch` block is not entered. -/
def cancelBooking (db : Database) (bookingId : Int) : UpdateResult :=
  { returned := true
    db :=
      { db with
        bookings := db.bookings.map (fun r =>
          if r.booking_id == bookingId then { r with booking_status := "Cancelled" } else r) } }

/-- `BookingManager::updatePaymentStatus`:
`UPDATE bookings SET payment_status = ? WHERE booking_id = ?`, then `true`; `false`, and no
change, when the server refuses the new value for a row the statement applies to.  The
`ENUM` column holds the label the server reads the string as. -/
def updatePaymentStatus (srv : Server) (db : Database) (bookingId : Int) (status : String) :
    UpdateResult :=
  if (db.bookings.filter (fun r => r.booking_id == bookingId)).all
      (fun r => srv.setPaymentStatus r status) then
    { returned := true
      db :=
        { db with
          bookings := db.bookings.map (fun r =>
            if r.booking_id == bookingId then
              { r with payment_status := srv.label paymentStatusLabels status }
            else r) } }
  else
    { returned := false, db := db }

/-- `PaymentSystem::processPayment`: the payment method is only printed; the result is
that of `updatePaymentStatus(bookingId, "Paid")`. -/
def processPayment (srv : Server) (db : Database) (bookingId : Int)
    (_paymentMethod : String) : UpdateResult :=
  if (updatePaymentStatus srv db bookingId "Paid").returned then
    { returned := true, db := (updatePaymentStatus srv db bookingId "Paid").db }
  else
    { returned := false, db := (updatePaymentStatus srv db bookingId "Paid").db }

/-! ## Sequences of calls -/

/-- A call of one of the three public mutators of `BookingManager`. -/
inductive Call where
  | createBooking (booking : Booking)
  | cancelBooking (bookingId : Int)
  | updatePaymentStatus (bookingId : Int) (status : String)
deriving DecidableEq, Repr

/-- The database after one call. -/
def Call.apply (srv : Server) (db : Database) : Call → Database
  | .createBooking booking => (Railway.createBooking srv db booking).db
  | .cancelBooking bookingId => (Railway.cancelBooking db bookingId).db
  | .updatePaymentStatus bookingId status =>
    (Railway.updatePaymentStatus srv db bookingId status).db

/-- The database after a sequence of calls, made one after another. -/
def runCalls (srv : Server) (db : Database) (calls : List Call) : Database :=
  calls.foldl (Call.apply srv) db

/-! ## Notions of the specification -/

/-- Committed seats of a key, in the words of the specification: the sum of
`numPassengers` over the bookings with that train and journey date whose status is
`Confirmed`.  A journey date is a day: the bookings counted are those of the day that
`journeyDate` is read as. -/
def committedSeats (srv : Server) (db : Database) (trainId : Int) (journeyDate : String) :
    Int :=
  ((db.bookings.filter (fun b =>
      b.train_id == trainId && srv.date b.journey_date == srv.date journeyDate
        && b.booking_status == "Confirmed")).map (fun b => b.num_passengers)).sum

/-- The capacity invariant of the specification: for every train of the table and every
journey date, the committed seats do not exceed the train's `totalSeats`. -/
def CapacityInvariant (srv : Server) (db : Database) : Prop :=
  ∀ t ∈ db.trains, ∀ journeyDate : String,
    committedSeats srv db t.trainId journeyDate ≤ t.totalSeats

/-- The primary key of `trains`: no two rows share a `train_id`. -/
def TrainKey (db : Database) : Prop :=
  (db.trains.map (fun t => t.trainId)).Nodup

/-- The primary key of `bookings`: no two rows share a `booking_id`. -/
def BookingKey (db : Database) : Prop :=
  (db.bookings.map (fun r => r.booking_id)).Nodup

/-- What one booking row adds to the committed seats of a key. -/
def seatsHeld (srv : Server) (trainId : Int) (journeyDate : String) (r : BookingRow) : Int :=
  if r.train_id == trainId && srv.date r.journey_date == srv.date journeyDate
      && r.booking_status == "Confirmed"
  then r.num_passengers else 0

/-- The row stored for a request that is accepted. -/
def storedRow (srv : Server) (db : Database) (b : Booking) : BookingRow :=
  bookingRow srv db { b with totalFare := calculateFare b.trainId b.numPassengers }

/-- Every stored booking has a non-negative passenger count. -/
def NonNegativeCounts (db : Database) : Prop :=
  ∀ r ∈ db.bookings, 0 ≤ r.num_passengers

instance (db : Database) : Decidable (TrainKey db) :=
  inferInstanceAs (Decidable (List.Nodup _))

instance (db : Database) : Decidable (BookingKey db) :=
  inferInstanceAs (Decidable (List.Nodup _))

instance (db : Database) : Decidable (NonNegativeCounts db) :=
  inferInstanceAs (Decidable (∀ r ∈ db.bookings, 0 ≤ r.num_passengers))

/-! ## Example data -/

/-- A train with two seats, the capacity used in the scenario of the specification. -/
def scenarioTrain : Train :=
  { trainId := 1, trainName := "Rajdhani Express", trainNumber := "RAJ2025",
    source := "Delhi", destination := "Mumbai", departureTime := "16:00:00",
    arrivalTime := "08:00:00", totalSeats := 2 }

/-- A database that holds this train and no booking yet. -/
def scenarioDb : Database :=
  { trains := [scenarioTrain], bookings := [], passengers := [],
    nextBookingId := 1, nextPassengerId := 1 }

/-- A passenger object as `Menu::bookTicket` builds it, with the gender the user typed. -/
def scenarioPassenger (name gender seat : String) : Passenger :=
  { passengerId := 0, passengerName := name, age := 30, gender := gender, seatNumber := seat }

/-- A `Booking` object for user 7 on the scenario train for journey date 2025-04-10, with
the given passenger count, passengers and booking status, fare `0.0` and payment status
`Pending`. -/
def scenarioRequest (numPassengers : Int) (passengers : List Passenger) (status : String) :
    Booking :=
  { bookingId := 0, userId := 7, trainId := 1, bookingDate := "2025-04-01",
    journeyDate := "2025-04-10", numPassengers := numPassengers, totalFare := 0,
    bookingStatus := status, paymentStatus := "Pending", passengers := passengers }

/-- A request as the server receives it from a caller that spells loosely: two passengers
on the scenario train, the journey date written `2025-4-10`, the status `confirmed`, the
payment status `pending`. -/
def looseRequest : Booking :=
  { bookingId := 0, userId := 7, trainId := 1, bookingDate := "2025-4-1",
    journeyDate := "2025-4-10", numPassengers := 2, totalFare := 0,
    bookingStatus := "confirmed", paymentStatus := "pending",
    passengers := [scenarioPassenger "Asha" "female" "A1", scenarioPassenger "Ravi" "Male" "A2"] }

/-- Three calls that start from no booking at all: a request for `-1` passengers, a request
for three passengers, and the cancellation of the first booking. -/
def negativeCountCalls : List Call :=
  [ Call.createBooking (scenarioRequest (-1) [] "Confirmed"),
    Call.createBooking (scenarioRequest 3
      [scenarioPassenger "Asha" "Female" "A1", scenarioPassenger "Ravi" "Male" "A2",
        scenarioPassenger "Mina" "Female" "A3"] "Confirmed"),
    Call.cancelBooking 1 ]

/-- The scenario of the specification as calls: A books two seats, B asks for one, A is
cancelled, B asks again. -/
def scenarioCalls : List Call :=
  [ Call.createBooking (scenarioRequest 2
      [scenarioPassenger "Asha" "Female" "A1", scenarioPassenger "Ravi" "Male" "A2"]
      "Confirmed"),
    Call.createBooking (scenarioRequest 1 [scenarioPassenger "Mina" "Female" "A1"] "Confirmed"),
    Call.cancelBooking 1,
    Call.createBooking (scenarioRequest 1 [scenarioPassenger "Mina" "Female" "A1"]
      "Confirmed") ]

/-- A database with the two-seat train and three bookings for 2025-04-10: one `Confirmed`
for one passenger, one `Waiting` for five, one `Cancelled` for two. -/
def mixedStatusDb : Database :=
  { trains := [scenarioTrain]
    bookings :=
      [ { booking_id := 1, user_id := 7, train_id := 1, booking_date := "2025-04-01",
          journey_date := "2025-04-10", num_passengers := 1, total_fare := 50,
          booking_status := "Confirmed", payment_status := "Paid" },
        { booking_id := 2, user_id := 8, train_id := 1, booking_date := "2025-04-02",
          journey_date := "2025-04-10", num_passengers := 5, total_fare := 250,
          booking_status := "Waiting", payment_status := "Pending" },
        { booking_id := 3, user_id := 9, train_id := 1, booking_date := "2025-04-03",
          journey_date := "2025-04-10", num_passengers := 2, total_fare := 100,
          booking_status := "Cancelled", payment_status := "Pending" } ]
    passengers := []
    nextBookingId := 4
    nextPassengerId := 1 }

/-- The table `bookings` without its `Waiting` and `Cancelled` rows. -/
def withoutWaitingAndCancelled (db : Database) : Database :=
  { db with
    bookings := db.bookings.filter (fun b =>
      b.booking_status != "Waiting" && b.booking_status != "Cancelled") }

/-- Two `createBooking` calls whose steps interleave: both read the available seats before
either inserts, then `first` inserts, then `second` inserts. -/
def createBookingInterleaved (srv : Server) (db : Database) (first second : Booking) :
    CreateResult × CreateResult :=
  let availableFirst := getAvailableSeats srv db first.trainId first.journeyDate
  let availableSecond := getAvailableSeats srv db second.trainId second.journeyDate
  let resultFirst := createBookingFrom srv db first availableFirst
  let resultSecond := createBookingFrom srv resultFirst.db second availableSecond
  (resultFirst, resultSecond)

/-- Request A of the scenario: two passengers. -/
def requestA : Booking :=
  scenarioRequest 2
    [scenarioPassenger "Asha" "Female" "A1", scenarioPassenger "Ravi" "Male" "A2"] "Confirmed"

/-- Request B of the scenario: one passenger. -/
def requestB : Booking :=
  scenarioRequest 1 [scenarioPassenger "Mina" "Female" "A1"] "Confirmed"

/-- The database after request A of the scenario has been accepted on the empty two-seat
train. -/
def bookedDb : Database :=
  (createBooking schemaServer scenarioDb requestA).db

/-- The row of `bookings` that request A leaves in `bookedDb`. -/
def bookedRow : BookingRow :=
  { booking_id := 1, user_id := 7, train_id := 1, booking_date := "2025-04-01",
    journey_date := "2025-04-10", num_passengers := 2, total_fare := 100,
    booking_status := "Confirmed", payment_status := "Pending" }

/-- The database in which booking 1 (request A) has been cancelled. -/
def cancelledDb : Database :=
  (cancelBooking bookedDb 1).db

/-- Request B of the scenario as a caller that spells loosely sends it: the journey date
written `2025-4-10`, the status `confirmed`. -/
def looseRequestB : Booking :=
  { requestB with journeyDate := "2025-4-10", bookingStatus := "confirmed" }

/-- A request for one passenger whose gender was typed as `M`, a string that is not a
label of `passengers.gender`. -/
def unknownGenderRequest : Booking :=
  scenarioRequest 1 [scenarioPassenger "Mina" "M" "A1"] "Confirmed"

/-! ## Reading bookings back -/

/-- The `Passenger` object that `getBookingById` and `getUserBookings` build from a row of
`passengers`. -/
def passengerOfRow (p : PassengerRow) : Passenger :=
  { passengerId := p.passenger_id
    passengerName := p.passenger_name
    age := p.age
    gender := p.gender
    seatNumber := p.seat_number }

/-- The `Booking` object that `getBookingById` and `getUserBookings` build from a row of
`bookings`: the nine columns, then one `addPassenger` per row of
`SELECT * FROM passengers WHERE booking_id = ?`, in the order of the table. -/
def bookingOfRow (db : Database) (r : BookingRow) : Booking :=
  { bookingId := r.booking_id
    userId := r.user_id
    trainId := r.train_id
    bookingDate := r.booking_date
    journeyDate := r.journey_date
    numPassengers := r.num_passengers
    totalFare := r.total_fare
    bookingStatus := r.booking_status
    paymentStatus := r.payment_status
    passengers :=
      (db.passengers.filter (fun p => p.booking_id == r.booking_id)).map passengerOfRow }

/-- `BookingManager::getBookingById`: `SELECT * FROM bookings WHERE booking_id = ?`; the
first row if there is one, `nullptr` otherwise. -/
def getBookingById (db : Database) (bookingId : Int) : Option Booking :=
  match db.bookings.filter (fun r => r.booking_id == bookingId) with
  | r :: _ => some (bookingOfRow db r)
  | [] => none

/-- `ORDER BY booking_date DESC`.  The column is a `DATE`, which reads back as
`YYYY-MM-DD`; on such strings the order of the dates is the order of the strings,
character by character. -/
def orderByBookingDateDesc (rows : List BookingRow) : List BookingRow :=
  rows.insertionSort (fun a b => b.booking_date.toList ≤ a.booking_date.toList)

/-- `BookingManager::getUserBookings`:
`SELECT * FROM bookings WHERE user_id = ? ORDER BY booking_date DESC`, one `Booking`
object per row, each with its passengers. -/
def getUserBookings (db : Database) (userId : Int) : List Booking :=
  (orderByBookingDateDesc (db.bookings.filter (fun r => r.user_id == userId))).map
    (bookingOfRow db)

/-! ## Menu -/

/-- What the user types for one passenger in `Menu::bookTicket`. -/
structure PassengerInput where
  name : String
  age : Int
  gender : String
deriving DecidableEq, Repr

/-- What the user types during `Menu::bookTicket`: the train id, the journey date, the
number of passengers, the answers for the passenger of each round of the loop (counted from
0), the answer to "Proceed to payment?" and the payment option. -/
structure BookTicketInput where
  trainId : Int
  journeyDate : String
  numPassengers : Int
  passengers : Nat → PassengerInput
  proceed : String
  paymentOption : Int

/-- The passenger `Menu::bookTicket` builds in round `i` of its loop: id 0, the answers
typed, and the seat label `"A" + to_string(i + 1)`. -/
def bookTicketPassenger (answers : Nat → PassengerInput) (i : Nat) : Passenger :=
  { passengerId := 0
    passengerName := (answers i).name
    age := (answers i).age
    gender := (answers i).gender
    seatNumber := "A" ++ toString (i + 1) }

/-- The `Booking` object `Menu::bookTicket` hands to `createBooking`: the constructor call
`Booking(0, userId, trainId, getCurrentDate(), journeyDate, numPassengers, 0.0,
"Confirmed", "Pending")` followed by the loop `for (i = 0; i < numPassengers; i++)`, which
adds one passenger per round. -/
def bookTicketBooking (userId : Int) (currentDate : String) (input : BookTicketInput) :
    Booking :=
  { bookingId := 0
    userId := userId
    trainId := input.trainId
    bookingDate := currentDate
    journeyDate := input.journeyDate
    numPassengers := input.numPassengers
    totalFare := 0
    bookingStatus := "Confirmed"
    paymentStatus := "Pending"
    passengers :=
      (List.range input.numPassengers.toNat).map (bookTicketPassenger input.passengers) }

/-- The `switch` of `Menu::bookTicket` on the payment option. -/
def paymentMethodOf (paymentOption : Int) : Option String :=
  if paymentOption = 1 then some "Credit Card"
  else if paymentOption = 2 then some "Debit Card"
  else if paymentOption = 3 then some "Net Banking"
  else if paymentOption = 4 then some "UPI Payment"
  else none

/-- `Menu::bookTicket` for the logged-in user `userId` on the day `currentDate`, as a
function from the database and what the user types to the database it leaves. -/
def bookTicket (srv : Server) (db : Database) (userId : Int) (currentDate : String)
    (input : BookTicketInput) : Database :=
  if db.trains.isEmpty then db
  else
    match getTrainById db input.trainId with
    | none => db
    | some _ =>
      let availableSeats := getAvailableSeats srv db input.trainId input.journeyDate
      if availableSeats ≤ 0 then db
      else if input.numPassengers ≤ 0 ∨ input.numPassengers > availableSeats then db
      else
        let created := createBooking srv db (bookTicketBooking userId currentDate input)
        if created.returned then
          if input.proceed = "y" ∨ input.proceed = "Y" then
            match paymentMethodOf input.paymentOption with
            | some paymentMethod =>
              (processPayment srv created.db created.booking.bookingId paymentMethod).db
            | none => created.db
          else created.db
        else created.db

/-! ## Several requests in a row -/

/-- The results of `createBooking` for a list of requests made one after another, and the
database after the last one. -/
def createBookings (srv : Server) (db : Database) : List Booking → List Bool × Database
  | [] => ([], db)
  | b :: bs =>
    ((createBooking srv db b).returned :: (createBookings srv (createBooking srv db b).db bs).1,
      (createBookings srv (createBooking srv db b).db bs).2)

/-- A request for one passenger whose `Booking` object carries the status `Cancelled` and
the payment status `Paid`. -/
def cancelledPaidRequest : Booking :=
  { scenarioRequest 1 [scenarioPassenger "Mina" "Female" "A1"] "Cancelled" with
    paymentStatus := "Paid" }

/-- The number a string of decimal digits stands for, read from the left. -/
def decimalValue (cs : List Char) (start : Nat) : Nat :=
  cs.foldl (fun acc c => acc * 10 + (c.toNat - 48)) start

/-- The answers typed for three passengers. -/
def threePassengersInput : BookTicketInput :=
  { trainId := 1
    journeyDate := "2025-04-10"
    numPassengers := 3
    passengers := fun i =>
      if i = 0 then { name := "Asha", age := 30, gender := "Female" }
      else if i = 1 then { name := "Ravi", age := 41, gender := "Male" }
      else { name := "Mina", age := 8, gender := "Female" }
    proceed := "y"
    paymentOption := 4 }

/-- The rows `addPassengers` appends to `passengers` when every insert is accepted: one
per passenger, in order, with consecutive ids from `start`. -/
def insertedPassengerRows (srv : Server) (start : Int) (bookingId : Int) :
    List Passenger → List PassengerRow
  | [] => []
  | p :: ps =>
    { passenger_id := start
      booking_id := bookingId
      passenger_name := p.passengerName
      age := p.age
      gender := srv.label genderLabels p.gender
      seat_number := p.seatNumber } :: insertedPassengerRows srv (start + 1) bookingId ps

/-- The four attributes of a passenger that the user supplies or the menu assigns: name,
age, gender, seat label. -/
def passengerDetails (p : Passenger) : String × Int × String × String :=
  (p.passengerName, p.age, p.gender, p.seatNumber)

/-- Every booking id and every `booking_id` of a passenger row is one that the counter of
`bookings` has already handed out. -/
def IdsBelowCounter (db : Database) : Prop :=
  (∀ r ∈ db.bookings, r.booking_id < db.nextBookingId)
    ∧ (∀ p ∈ db.passengers, p.booking_id < db.nextBookingId)

instance (db : Database) : Decidable (IdsBelowCounter db) :=
  inferInstanceAs (Decidable (_ ∧ _))

/-- Every stored booking's `num_passengers` is the number of rows of `passengers` that
carry its id. -/
def PassengerCountsMatch (db : Database) : Prop :=
  ∀ r ∈ db.bookings,
    r.num_passengers = ((db.passengers.filter (fun p => p.booking_id == r.booking_id)).length : Int)

instance (db : Database) : Decidable (PassengerCountsMatch db) :=
  inferInstanceAs (Decidable (∀ r ∈ db.bookings, _))

/-- A request for two passengers whose passenger list holds one passenger. -/
def shortListRequest : Booking :=
  scenarioRequest 2 [scenarioPassenger "Asha" "Female" "A1"] "Confirmed"

/-- The calls of the scenario, made through a server that accepts their rows. -/
def matchingCalls : List Call :=
  [Call.createBooking requestA, Call.cancelBooking 1, Call.createBooking requestB,
    Call.updatePaymentStatus 2 "Paid"]

/-- A request with an empty passenger list and `numPassengers = 0`. -/
def emptyRequest : Booking :=
  scenarioRequest 0 [] "Confirmed"

/-- A request for one passenger of age `-5`. -/
def negativeAgeRequest : Booking :=
  scenarioRequest 1
    [{ passengerId := 0, passengerName := "Asha", age := -5, gender := "Female",
       seatNumber := "A1" }] "Confirmed"

/-- What the user types to ask for zero passengers. -/
def zeroPassengersInput : BookTicketInput :=
  { threePassengersInput with numPassengers := 0 }

/-- A request for one seat whose `Booking` object carries the status `Waiting`. -/
def waitingRequest : Booking :=
  scenarioRequest 1 [scenarioPassenger "Mina" "Female" "A1"] "Waiting"

/-- A database with four bookings: three of user 7, booked on 2025-04-01, 2025-04-03 and
2025-04-02 in this order of insertion, and one of user 8. -/
def datedDb : Database :=
  { trains := [scenarioTrain]
    bookings :=
      [ { booking_id := 1, user_id := 7, train_id := 1, booking_date := "2025-04-01",
          journey_date := "2025-04-10", num_passengers := 1, total_fare := 50,
          booking_status := "Confirmed", payment_status := "Paid" },
        { booking_id := 2, user_id := 7, train_id := 1, booking_date := "2025-04-03",
          journey_date := "2025-04-11", num_passengers := 1, total_fare := 50,
          booking_status := "Confirmed", payment_status := "Pending" },
        { booking_id := 3, user_id := 8, train_id := 1, booking_date := "2025-04-04",
          journey_date := "2025-04-11", num_passengers := 1, total_fare := 50,
          booking_status := "Confirmed", payment_status := "Pending" },
        { booking_id := 4, user_id := 7, train_id := 1, booking_date := "2025-04-02",
          journey_date := "2025-04-12", num_passengers := 1, total_fare := 50,
          booking_status := "Cancelled", payment_status := "Pending" } ]
    passengers :=
      [ { passenger_id := 1, booking_id := 1, passenger_name := "Asha", age := 30,
          gender := "Female", seat_number := "A1" },
        { passenger_id := 2, booking_id := 2, passenger_name := "Asha", age := 30,
          gender := "Female", seat_number := "A1" },
        { passenger_id := 3, booking_id := 3, passenger_name := "Ravi", age := 41,
          gender := "Male", seat_number := "A1" },
        { passenger_id := 4, booking_id := 4, passenger_name := "Asha", age := 30,
          gender := "Female", seat_number := "A1" } ]
    nextBookingId := 5
    nextPassengerId := 5 }

/-- The columns of a booking row that identify the booking and its content: id, user,
train, journey date, passenger count and fare. -/
def fixedColumns (r : BookingRow) : Int × Int × Int × String × Int × Int :=
  (r.booking_id, r.user_id, r.train_id, r.journey_date, r.num_passengers, r.total_fare)

/-- The calls of a list that set a payment status all set it to `Paid`, as
`PaymentSystem::processPayment` does. -/
def OnlyPaid (calls : List Call) : Prop :=
  ∀ (bookingId : Int) (status : String),
    Call.updatePaymentStatus bookingId status ∈ calls → status = "Paid"

/-- Calls made after the bookings of `mixedStatusDb`: a new booking, a cancellation of the
cancelled booking 3, and a payment for it. -/
def laterCalls : List Call :=
  [Call.createBooking requestB, Call.cancelBooking 3, Call.updatePaymentStatus 3 "Paid",
    Call.cancelBooking 1]

/-- Every stored booking has at least one passenger in its count. -/
def PositiveCounts (db : Database) : Prop :=
  ∀ r ∈ db.bookings, 1 ≤ r.num_passengers

instance (db : Database) : Decidable (PositiveCounts db) :=
  inferInstanceAs (Decidable (∀ r ∈ db.bookings, 1 ≤ r.num_passengers))

/-- What the user types during `Menu::cancelBooking`: the booking id and the answer to
"Are you sure?". -/
structure CancelBookingInput where
  bookingId : Int
  confirm : String
deriving DecidableEq, Repr

/-- What `Menu::cancelBooking` leaves behind: whether it called
`BookingManager::cancelBooking`, and the database. -/
structure MenuCancelResult where
  cancelCalled : Bool
  db : Database
deriving DecidableEq, Repr

/-- `Menu::cancelBooking` for the logged-in user `userId`: it returns early when the user
has no booking, when the id typed is 0, and when no booking of the user has that id and a
status other than `Cancelled`; otherwise it calls `BookingManager::cancelBooking` if the
answer is `y` or `Y`. -/
def menuCancelBooking (db : Database) (userId : Int) (input : CancelBookingInput) :
    MenuCancelResult :=
  let bookings := getUserBookings db userId
  if bookings.isEmpty then { cancelCalled := false, db := db }
  else if input.bookingId = 0 then { cancelCalled := false, db := db }
  else
    let found := bookings.any (fun booking =>
      booking.bookingId == input.bookingId && booking.bookingStatus != "Cancelled")
    if !found then { cancelCalled := false, db := db }
    else if input.confirm = "y" ∨ input.confirm = "Y" then
      { cancelCalled := true, db := (cancelBooking db input.bookingId).db }
    else { cancelCalled := false, db := db }

/-- `Utility::getCurrentDate`, as a function of the three fields of the broken-down time
that `localtime` returns: `to_string(1900 + tm_year)`, `to_string(1 + tm_mon)` and
`to_string(tm_mday)`, the last two with a `"0"` in front when they are one character long,
joined by `"-"`. -/
def getCurrentDate (tm_year tm_mon tm_mday : Int) : String :=
  let year := toString (1900 + tm_year)
  let month := toString (1 + tm_mon)
  let month := if month.length = 1 then "0" ++ month else month
  let day := toString tm_mday
  let day := if day.length = 1 then "0" ++ day else day
  year ++ "-" ++ month ++ "-" ++ day

/-- The ranges of the claim for the fields of a broken-down time: a four-digit year,
`tm_mon` from 0 to 11, `tm_mday` from 1 to 31. -/
def ValidTime (tm_year tm_mon tm_mday : Int) : Prop :=
  1000 ≤ 1900 + tm_year ∧ 1900 + tm_year ≤ 9999 ∧ 0 ≤ tm_mon ∧ tm_mon ≤ 11
    ∧ 1 ≤ tm_mday ∧ tm_mday ≤ 31

instance (tm_year tm_mon tm_mday : Int) : Decidable (ValidTime tm_year tm_mon tm_mday) :=
  inferInstanceAs (Decidable (_ ∧ _))

/-- The calendar order on the three fields: by year, then month, then day. -/
def EarlierDay (y1 m1 d1 y2 m2 d2 : Int) : Prop :=
  y1 < y2 ∨ (y1 = y2 ∧ (m1 < m2 ∨ (m1 = m2 ∧ d1 < d2)))

/-- The ten characters `YYYY-MM-DD` for a year below 10000 and a month and a day below
100. -/
def dateChars (y m d : Nat) : List Char :=
  [Nat.digitChar (y / 10 / 10 / 10), Nat.digitChar (y / 10 / 10 % 10),
    Nat.digitChar (y / 10 % 10), Nat.digitChar (y % 10), '-',
    Nat.digitChar (m / 10), Nat.digitChar (m % 10), '-',
    Nat.digitChar (d / 10), Nat.digitChar (d % 10)]

/-! ## The availability query -/

theorem coalesce_sqlSum_cons_some (x : Int) (xs : List (Option Int)) :
    coalesce (sqlSum (some x :: xs)) 0 = x + coalesce (sqlSum xs) 0 := by
  simp only [sqlSum]
  cases sqlSum xs <;> simp [coalesce]

theorem coalesce_sqlSum_map_some (l : List Int) :
    coalesce (sqlSum (l.map some)) 0 = l.sum := by
  induction l with
  | nil => rfl
  | cons x xs ih => rw [List.map_cons, coalesce_sqlSum_cons_some, ih, List.sum_cons]

theorem joinCondition_eq {srv : Server} (d : String) (t : Train) (b : BookingRow) :
    joinCondition srv d t b
      = (b.train_id == t.trainId && srv.date b.journey_date == srv.date d
          && b.booking_status == "Confirmed") := by
  unfold joinCondition
  rw [show (t.trainId == b.train_id) = (b.train_id == t.trainId) from
    Bool.eq_iff_iff.mpr ⟨fun h => beq_iff_eq.mpr (beq_iff_eq.mp h).symm,
      fun h => beq_iff_eq.mpr (beq_iff_eq.mp h).symm⟩]

theorem joinedRows_ne_nil {srv : Server} (bs : List BookingRow) (d : String) (t : Train) :
    joinedRows srv bs d t ≠ [] := by
  unfold joinedRows
  split <;> simp

theorem joinedRows_fst {srv : Server} (bs : List BookingRow) (d : String) (t : Train) :
    ∀ r ∈ joinedRows srv bs d t, r.1 = t := by
  intro r hr
  unfold joinedRows at hr
  split at hr
  · simp at hr; rw [hr]
  · simp only [List.mem_map] at hr
    obtain ⟨_, _, rfl⟩ := hr
    rfl

theorem joinedRows_sum {srv : Server} (bs : List BookingRow) (d : String) (t : Train) :
    coalesce (sqlSum ((joinedRows srv bs d t).map (fun x => x.2.map (fun b => b.num_passengers)))) 0
      = ((bs.filter (joinCondition srv d t)).map (fun b => b.num_passengers)).sum := by
  unfold joinedRows
  split
  next h => rw [h]; rfl
  next b bs' h =>
    rw [h, List.map_map]
    have : ((fun x : Train × Option BookingRow => x.2.map (fun b => b.num_passengers))
        ∘ fun r => (t, some r)) = some ∘ (fun b : BookingRow => b.num_passengers) := rfl
    rw [this, ← List.map_map]
    exact coalesce_sqlSum_map_some _

theorem filter_joinedRows {srv : Server} (bs : List BookingRow) (d : String) (t : Train) (k : Int) :
    (joinedRows srv bs d t).filter (fun r => r.1.trainId == k)
      = if t.trainId == k then joinedRows srv bs d t else [] := by
  split
  next h =>
    apply List.filter_eq_self.mpr
    intro r hr
    rw [joinedRows_fst bs d t r hr]; exact h
  next h =>
    apply List.filter_eq_nil_iff.mpr
    intro r hr
    rw [joinedRows_fst bs d t r hr]; exact h

theorem filter_leftJoin_of_not_mem {srv : Server} (ts : List Train) (bs : List BookingRow) (d : String) (k : Int)
    (h : ∀ t ∈ ts, t.trainId ≠ k) :
    (ts.flatMap (joinedRows srv bs d)).filter (fun r => r.1.trainId == k) = [] := by
  induction ts with
  | nil => rfl
  | cons t ts ih =>
    rw [List.flatMap_cons, List.filter_append, filter_joinedRows,
      ih (fun t' ht' => h t' (List.mem_cons_of_mem _ ht'))]
    have := h t (List.mem_cons_self _ _)
    simp [this]

theorem filter_leftJoin_of_mem {srv : Server} (ts : List Train) (bs : List BookingRow) (d : String) (t : Train)
    (hk : (ts.map (fun t => t.trainId)).Nodup) (ht : t ∈ ts) :
    (ts.flatMap (joinedRows srv bs d)).filter (fun r => r.1.trainId == t.trainId)
      = joinedRows srv bs d t := by
  induction ts with
  | nil => simp at ht
  | cons t' ts ih =>
    rw [List.map_cons, List.nodup_cons] at hk
    rw [List.flatMap_cons, List.filter_append, filter_joinedRows]
    rcases List.mem_cons.mp ht with rfl | hmem
    · rw [filter_leftJoin_of_not_mem]
      · simp
      · intro t' ht' heq
        exact hk.1 (heq ▸ List.mem_map_of_mem _ ht')
    · have hne : t'.trainId ≠ t.trainId := by
        intro heq
        exact hk.1 (heq ▸ List.mem_map_of_mem _ hmem)
      rw [ih hk.2 hmem]
      simp [hne]

theorem groupKeys_const (k : Int) (l : List Int) (hne : l ≠ []) (h : ∀ x ∈ l, x = k) :
    groupKeys l = [k] := by
  induction l with
  | nil => exact absurd rfl hne
  | cons x xs ih =>
    have hx : x = k := h x (List.mem_cons_self _ _)
    subst hx
    by_cases hxs : xs = []
    · subst hxs; rfl
    · rw [groupKeys, ih hxs (fun y hy => h y (List.mem_cons_of_mem _ hy))]
      simp

theorem availableSeatsQuery_of_mem {srv : Server} (db : Database) (t : Train) (d : String)
    (hk : TrainKey db) (ht : t ∈ db.trains) :
    availableSeatsQuery srv db t.trainId d = [t.totalSeats - committedSeats srv db t.trainId d] := by
  unfold availableSeatsQuery leftJoin
  simp only []
  rw [filter_leftJoin_of_mem db.trains db.bookings d t hk ht]
  have hkeys : groupKeys ((joinedRows srv db.bookings d t).map (fun r => r.1.trainId))
      = [t.trainId] := by
    apply groupKeys_const
    · simpa using joinedRows_ne_nil db.bookings d t
    · intro x hx
      obtain ⟨r, hr, rfl⟩ := List.mem_map.mp hx
      rw [joinedRows_fst _ _ _ r hr]
  rw [hkeys, List.filterMap_cons, filter_joinedRows]
  simp only [beq_self_eq_true, if_true, List.filterMap_nil]
  have hsum := @joinedRows_sum srv db.bookings d t
  have hfst := @joinedRows_fst srv db.bookings d t
  have hne := @joinedRows_ne_nil srv db.bookings d t
  cases hrows : joinedRows srv db.bookings d t with
  | nil => exact absurd hrows hne
  | cons r rs =>
    rw [hrows] at hsum hfst
    simp only []
    rw [hsum, hfst r (List.mem_cons_self _ _)]
    unfold committedSeats
    rw [show (fun b : BookingRow => b.train_id == t.trainId
          && srv.date b.journey_date == srv.date d
          && b.booking_status == "Confirmed") = joinCondition srv d t from
        funext (fun b => (joinCondition_eq d t b).symm)]

theorem getAvailableSeats_of_mem {srv : Server} (db : Database) (t : Train) (d : String)
    (hk : TrainKey db) (ht : t ∈ db.trains) :
    getAvailableSeats srv db t.trainId d = t.totalSeats - committedSeats srv db t.trainId d := by
  unfold getAvailableSeats
  rw [availableSeatsQuery_of_mem db t d hk ht]

theorem getAvailableSeats_of_not_mem {srv : Server} (db : Database) (k : Int) (d : String)
    (h : ∀ t ∈ db.trains, t.trainId ≠ k) :
    getAvailableSeats srv db k d = 0 := by
  have h1 : availableSeatsQuery srv db k d = [] := by
    unfold availableSeatsQuery leftJoin
    simp only []
    rw [filter_leftJoin_of_not_mem db.trains db.bookings d k h]
    rfl
  have h2 : totalSeatsQuery db k = [] := by
    unfold totalSeatsQuery
    rw [List.map_eq_nil_iff, List.filter_eq_nil_iff]
    intro t ht
    simpa using h t ht
  unfold getAvailableSeats
  rw [h1, h2]

/-! ## Committed seats and the steps of `createBooking` -/

theorem sum_filter_map (p : BookingRow → Bool) (g : BookingRow → Int) (l : List BookingRow) :
    ((l.filter p).map g).sum = (l.map (fun x => if p x then g x else 0)).sum := by
  induction l with
  | nil => rfl
  | cons x xs ih =>
    by_cases hx : p x = true
    · rw [List.filter_cons_of_pos hx, List.map_cons, List.sum_cons, List.map_cons,
        List.sum_cons, ih, if_pos hx]
    · rw [List.filter_cons_of_neg hx, List.map_cons, List.sum_cons, ih, if_neg hx, zero_add]

theorem committedSeats_eq_sum {srv : Server} (db : Database) (k : Int) (d : String) :
    committedSeats srv db k d = (db.bookings.map (seatsHeld srv k d)).sum := by
  unfold committedSeats
  rw [sum_filter_map]
  rfl

theorem committedSeats_append {srv : Server} (db db1 : Database) (r : BookingRow) (k : Int) (d : String)
    (h : db1.bookings = db.bookings ++ [r]) :
    committedSeats srv db1 k d = committedSeats srv db k d + seatsHeld srv k d r := by
  rw [committedSeats_eq_sum, committedSeats_eq_sum, h, List.map_append, List.sum_append]
  simp

theorem addPassengers_trains (srv : Server) (bookingId : Int) (ps : List Passenger) :
    ∀ db : Database, (addPassengers srv db bookingId ps).2.trains = db.trains := by
  induction ps with
  | nil => intro db; rfl
  | cons p ps ih =>
    intro db
    unfold addPassengers
    split
    · rw [ih]
    · rfl

theorem addPassengers_bookings (srv : Server) (bookingId : Int) (ps : List Passenger) :
    ∀ db : Database, (addPassengers srv db bookingId ps).2.bookings = db.bookings := by
  induction ps with
  | nil => intro db; rfl
  | cons p ps ih =>
    intro db
    unfold addPassengers
    split
    · rw [ih]
    · rfl

theorem createBookingFrom_short (srv : Server) (db : Database) (b : Booking) (a : Int)
    (h : a < b.numPassengers) :
    createBookingFrom srv db b a = { returned := false, booking := b, db := db } := by
  unfold createBookingFrom
  rw [if_pos h]

theorem createBookingFrom_refused (srv : Server) (db : Database) (b : Booking) (a : Int)
    (h : ¬ a < b.numPassengers) (hs : srv.insertBooking (storedRow srv db b) = false) :
    createBookingFrom srv db b a
      = { returned := false
          booking := { b with totalFare := calculateFare b.trainId b.numPassengers }
          db := db } := by
  unfold createBookingFrom
  rw [if_neg h]
  have hs1 : ¬ srv.insertBooking
      (bookingRow srv db { b with totalFare := calculateFare b.trainId b.numPassengers }) = true := by
    intro hc
    have hc1 : srv.insertBooking (storedRow srv db b) = true := hc
    rw [hs] at hc1
    exact Bool.noConfusion hc1
  simp only []
  rw [if_neg hs1]

theorem createBookingFrom_stored (srv : Server) (db : Database) (b : Booking) (a : Int)
    (h : ¬ a < b.numPassengers) (hs : srv.insertBooking (storedRow srv db b) = true) :
    createBookingFrom srv db b a
      = { returned := true
          booking :=
            { b with
              totalFare := calculateFare b.trainId b.numPassengers
              bookingId := db.nextBookingId }
          db :=
            (addPassengers srv
              { db with
                bookings := db.bookings ++ [storedRow srv db b]
                nextBookingId := db.nextBookingId + 1 }
              db.nextBookingId b.passengers).2 } := by
  unfold createBookingFrom
  rw [if_neg h]
  have hs1 : srv.insertBooking
      (bookingRow srv db { b with totalFare := calculateFare b.trainId b.numPassengers }) = true := hs
  simp only []
  rw [if_pos hs1]
  rfl

theorem createBookingFrom_returned (srv : Server) (db : Database) (b : Booking) (a : Int) :
    (createBookingFrom srv db b a).returned = true
      ↔ ¬ a < b.numPassengers ∧ srv.insertBooking (storedRow srv db b) = true := by
  by_cases h : a < b.numPassengers
  · rw [createBookingFrom_short srv db b a h]
    simp [h]
  · cases hs : srv.insertBooking (storedRow srv db b)
    · rw [createBookingFrom_refused srv db b a h hs]
      simp
    · rw [createBookingFrom_stored srv db b a h hs]
      simp [h]

theorem createBookingFrom_false (srv : Server) (db : Database) (b : Booking) (a : Int)
    (h : (createBookingFrom srv db b a).returned = false) :
    (createBookingFrom srv db b a).db = db := by
  by_cases hlt : a < b.numPassengers
  · rw [createBookingFrom_short srv db b a hlt]
  · cases hs : srv.insertBooking (storedRow srv db b)
    · rw [createBookingFrom_refused srv db b a hlt hs]
    · rw [createBookingFrom_stored srv db b a hlt hs] at h
      exact Bool.noConfusion h

theorem createBookingFrom_true (srv : Server) (db : Database) (b : Booking) (a : Int)
    (h : (createBookingFrom srv db b a).returned = true) :
    (createBookingFrom srv db b a).db.trains = db.trains
      ∧ (createBookingFrom srv db b a).db.bookings = db.bookings ++ [storedRow srv db b] := by
  obtain ⟨hlt, hs⟩ := (createBookingFrom_returned srv db b a).mp h
  rw [createBookingFrom_stored srv db b a hlt hs]
  exact ⟨addPassengers_trains _ _ _ _, addPassengers_bookings _ _ _ _⟩

/-! ## The capacity invariant along a run -/

theorem seatsHeld_nonneg {srv : Server} (k : Int) (d : String) (r : BookingRow) (h : 0 ≤ r.num_passengers) :
    0 ≤ seatsHeld srv k d r := by
  unfold seatsHeld
  split
  · exact h
  · exact le_refl 0

theorem seatsHeld_cancelled {srv : Server} (k : Int) (d : String) (r : BookingRow) :
    seatsHeld srv k d { r with booking_status := "Cancelled" } = 0 := by
  unfold seatsHeld
  have : (("Cancelled" : String) == "Confirmed") = false := by decide
  simp [this]

theorem seatsHeld_payment {srv : Server} (k : Int) (d : String) (r : BookingRow) (s : String) :
    seatsHeld srv k d { r with payment_status := s } = seatsHeld srv k d r := rfl

theorem committedSeats_cancel_le {srv : Server} (db : Database) (id : Int) (k : Int) (d : String)
    (hnn : NonNegativeCounts db) :
    committedSeats srv (cancelBooking db id).db k d ≤ committedSeats srv db k d := by
  rw [committedSeats_eq_sum, committedSeats_eq_sum]
  show ((db.bookings.map _).map _).sum ≤ _
  rw [List.map_map]
  apply List.sum_le_sum
  intro r hr
  simp only [Function.comp]
  split
  · rw [seatsHeld_cancelled]; exact seatsHeld_nonneg k d r (hnn r hr)
  · exact le_refl _

theorem nonNegativeCounts_cancel (db : Database) (id : Int) (hnn : NonNegativeCounts db) :
    NonNegativeCounts (cancelBooking db id).db := by
  intro r hr
  obtain ⟨r0, hr0, rfl⟩ := List.mem_map.mp hr
  split
  · exact hnn r0 hr0
  · exact hnn r0 hr0

theorem updatePaymentStatus_trains (srv : Server) (db : Database) (id : Int) (s : String) :
    (updatePaymentStatus srv db id s).db.trains = db.trains := by
  unfold updatePaymentStatus
  split <;> rfl

theorem committedSeats_updatePaymentStatus (srv : Server) (db : Database) (id : Int)
    (s : String) (k : Int) (d : String) :
    committedSeats srv (updatePaymentStatus srv db id s).db k d = committedSeats srv db k d := by
  unfold updatePaymentStatus
  split
  · rw [committedSeats_eq_sum, committedSeats_eq_sum]
    show ((db.bookings.map _).map _).sum = _
    rw [List.map_map]
    congr 1
    apply List.map_congr_left
    intro r _
    simp only [Function.comp]
    split
    · exact seatsHeld_payment k d r s
    · rfl
  · rfl

theorem nonNegativeCounts_updatePaymentStatus (srv : Server) (db : Database) (id : Int)
    (s : String) (hnn : NonNegativeCounts db) :
    NonNegativeCounts (updatePaymentStatus srv db id s).db := by
  unfold updatePaymentStatus
  split
  · intro r hr
    obtain ⟨r0, hr0, rfl⟩ := List.mem_map.mp hr
    split
    · exact hnn r0 hr0
    · exact hnn r0 hr0
  · exact hnn

theorem createBooking_trains (srv : Server) (db : Database) (b : Booking) :
    (createBooking srv db b).db.trains = db.trains := by
  cases h : (createBooking srv db b).returned
  · unfold createBooking at h ⊢
    rw [createBookingFrom_false srv db b _ h]
  · unfold createBooking at h ⊢
    exact (createBookingFrom_true srv db b _ h).1

theorem nonNegativeCounts_createBooking (srv : Server) (db : Database) (b : Booking)
    (hb : 0 ≤ b.numPassengers) (hnn : NonNegativeCounts db) :
    NonNegativeCounts (createBooking srv db b).db := by
  cases h : (createBooking srv db b).returned
  · unfold createBooking at h ⊢
    rw [createBookingFrom_false srv db b _ h]
    exact hnn
  · unfold createBooking at h ⊢
    intro r hr
    rw [(createBookingFrom_true srv db b _ h).2] at hr
    rcases List.mem_append.mp hr with hr | hr
    · exact hnn r hr
    · rw [List.mem_singleton.mp hr]
      exact hb

/-- Two spellings of one day have the same committed seats. -/
theorem committedSeats_of_same_day {srv : Server} (db : Database) (k : Int) (d e : String)
    (h : srv.date e = srv.date d) :
    committedSeats srv db k e = committedSeats srv db k d := by
  unfold committedSeats
  rw [h]

theorem seatsHeld_storedRow {srv : Server} (db : Database) (b : Booking) (k : Int) (d : String) :
    seatsHeld srv k d (storedRow srv db b)
      = if b.trainId = k ∧ srv.date b.journeyDate = srv.date d
            ∧ srv.label bookingStatusLabels b.bookingStatus = "Confirmed"
        then b.numPassengers else 0 := by
  unfold seatsHeld storedRow bookingRow
  simp only [Bool.and_eq_true, beq_iff_eq, and_assoc, srv.date_date]

/-- After an accepted request on a train of the table, the committed seats of the
request's key fit in the train: this is what the comparison in `createBooking` checks. -/
theorem committedSeats_createBooking_le (srv : Server) (db : Database) (b : Booking)
    (hk : TrainKey db) (t : Train) (ht : t ∈ db.trains) (d : String)
    (h0 : committedSeats srv db t.trainId d ≤ t.totalSeats) :
    committedSeats srv (createBooking srv db b).db t.trainId d ≤ t.totalSeats := by
  cases h : (createBooking srv db b).returned
  · unfold createBooking at h ⊢
    rw [createBookingFrom_false srv db b _ h]
    exact h0
  · unfold createBooking at h ⊢
    rw [committedSeats_append db _ _ t.trainId d (createBookingFrom_true srv db b _ h).2,
      seatsHeld_storedRow]
    split
    next hm =>
      obtain ⟨h1, h2, _⟩ := hm
      have hlt := ((createBookingFrom_returned srv db b _).mp h).1
      rw [h1, getAvailableSeats_of_mem db t _ hk ht,
        committedSeats_of_same_day db t.trainId d b.journeyDate h2] at hlt
      omega
    next => simpa using h0

theorem apply_preserves (srv : Server) (db : Database) (c : Call)
    (hc : ∀ b, c = Call.createBooking b → 0 ≤ b.numPassengers)
    (h : TrainKey db ∧ CapacityInvariant srv db ∧ NonNegativeCounts db) :
    TrainKey (c.apply srv db) ∧ CapacityInvariant srv (c.apply srv db)
      ∧ NonNegativeCounts (c.apply srv db) := by
  obtain ⟨hk, hinv, hnn⟩ := h
  cases c with
  | createBooking b =>
    refine ⟨?_, ?_, nonNegativeCounts_createBooking srv db b (hc b rfl) hnn⟩
    · unfold TrainKey Call.apply
      rw [createBooking_trains]; exact hk
    · intro t ht d
      have ht0 : t ∈ db.trains := by
        rw [← createBooking_trains srv db b]; exact ht
      exact committedSeats_createBooking_le srv db b hk t ht0 d (hinv t ht0 d)
  | cancelBooking id =>
    refine ⟨hk, ?_, nonNegativeCounts_cancel db id hnn⟩
    intro t ht d
    exact le_trans (committedSeats_cancel_le db id t.trainId d hnn) (hinv t ht d)
  | updatePaymentStatus id s =>
    refine ⟨?_, ?_, nonNegativeCounts_updatePaymentStatus srv db id s hnn⟩
    · unfold TrainKey Call.apply
      rw [updatePaymentStatus_trains]; exact hk
    · intro t ht d
      have ht0 : t ∈ db.trains := by
        rw [← updatePaymentStatus_trains srv db id s]; exact ht
      show committedSeats srv (updatePaymentStatus srv db id s).db t.trainId d ≤ _
      rw [committedSeats_updatePaymentStatus]
      exact hinv t ht0 d

theorem runCalls_preserves (srv : Server) (calls : List Call) :
    ∀ db : Database, (∀ b, Call.createBooking b ∈ calls → 0 ≤ b.numPassengers) →
      TrainKey db ∧ CapacityInvariant srv db ∧ NonNegativeCounts db →
      TrainKey (runCalls srv db calls) ∧ CapacityInvariant srv (runCalls srv db calls)
        ∧ NonNegativeCounts (runCalls srv db calls) := by
  induction calls with
  | nil => intro db _ h; exact h
  | cons c cs ih =>
    intro db hc h
    show TrainKey (runCalls srv (c.apply srv db) cs) ∧ _
    apply ih
    · intro b hb; exact hc b (List.mem_cons_of_mem _ hb)
    · apply apply_preserves srv db c _ h
      intro b hb
      exact hc b (hb ▸ List.mem_cons_self _ _)

theorem getAvailableSeats_nonneg_of_invariant {srv : Server} (db : Database) (hk : TrainKey db)
    (hinv : CapacityInvariant srv db) (k : Int) (d : String) :
    0 ≤ getAvailableSeats srv db k d := by
  by_cases h : ∃ t ∈ db.trains, t.trainId = k
  · obtain ⟨t, ht, rfl⟩ := h
    rw [getAvailableSeats_of_mem db t d hk ht]
    have := hinv t ht d
    omega
  · rw [getAvailableSeats_of_not_mem db k d (fun t ht heq => h ⟨t, ht, heq⟩)]

theorem invariant_of_getAvailableSeats_nonneg {srv : Server} (db : Database) (hk : TrainKey db)
    (h : ∀ (k : Int) (d : String), 0 ≤ getAvailableSeats srv db k d) :
    CapacityInvariant srv db := by
  intro t ht d
  have := h t.trainId d
  rw [getAvailableSeats_of_mem db t d hk ht] at this
  omega

/-! ## C1: the capacity invariant -/

theorem capacityInvariant_scenarioDb : CapacityInvariant schemaServer scenarioDb := by
  intro t ht d
  rw [List.mem_singleton.mp ht]
  exact (by decide : (0 : Int) ≤ 2)

theorem scenarioCalls_nonneg :
    ∀ b, Call.createBooking b ∈ scenarioCalls → 0 ≤ b.numPassengers := by
  intro b hb
  simp only [scenarioCalls, List.mem_cons, Call.createBooking.injEq, List.mem_singleton,
    List.not_mem_nil, or_false, reduceCtorEq, false_or] at hb
  rcases hb with rfl | rfl | rfl <;> decide

theorem seatsHeld_eq_zero_of_status {srv : Server} (k : Int) (d : String) (r : BookingRow)
    (h : r.booking_status ≠ "Confirmed") : seatsHeld srv k d r = 0 := by
  unfold seatsHeld
  simp [h]

theorem committedSeats_withoutWaitingAndCancelled {srv : Server} (db : Database) (k : Int) (d : String) :
    committedSeats srv (withoutWaitingAndCancelled db) k d = committedSeats srv db k d := by
  rw [committedSeats_eq_sum, committedSeats_eq_sum]
  show ((db.bookings.filter _).map _).sum = _
  rw [sum_filter_map]
  congr 1
  apply List.map_congr_left
  intro r _
  split
  · rfl
  next hf =>
    symm
    apply seatsHeld_eq_zero_of_status
    intro hc
    apply hf
    rw [hc]
    decide

/-- C4: when `createBooking` returns `false`, the three tables are what they were before
the call (no booking row, no passenger row), and so are the committed seats and the
available seats of every key. -/
theorem createBooking_rejected_unchanged (srv : Server) (db : Database) (b : Booking)
    (h : (createBooking srv db b).returned = false) :
    (createBooking srv db b).db.bookings = db.bookings
      ∧ (createBooking srv db b).db.passengers = db.passengers
      ∧ (createBooking srv db b).db.trains = db.trains
      ∧ (∀ (k : Int) (d : String),
          committedSeats srv (createBooking srv db b).db k d = committedSeats srv db k d)
      ∧ (∀ (k : Int) (d : String),
          getAvailableSeats srv (createBooking srv db b).db k d = getAvailableSeats srv db k d) := by
  have hdb : (createBooking srv db b).db = db := createBookingFrom_false srv db b _ h
  rw [hdb]
  exact ⟨rfl, rfl, rfl, fun _ _ => rfl, fun _ _ => rfl⟩

/-- Witness of C4: three passengers are refused on the empty two-seat train. -/
theorem createBooking_rejected_unchanged_witness :
    (createBooking schemaServer scenarioDb (scenarioRequest 3
        [scenarioPassenger "Asha" "Female" "A1", scenarioPassenger "Ravi" "Male" "A2",
          scenarioPassenger "Mina" "Female" "A3"] "Confirmed")).returned = false
      ∧ (createBooking schemaServer scenarioDb (scenarioRequest 3
          [scenarioPassenger "Asha" "Female" "A1", scenarioPassenger "Ravi" "Male" "A2",
            scenarioPassenger "Mina" "Female" "A3"] "Confirmed")).db.bookings
          = scenarioDb.bookings :=
  ⟨by decide,
    (createBooking_rejected_unchanged schemaServer scenarioDb (scenarioRequest 3
      [scenarioPassenger "Asha" "Female" "A1", scenarioPassenger "Ravi" "Male" "A2",
        scenarioPassenger "Mina" "Female" "A3"] "Confirmed") (by decide)).1⟩

/-! ## C5: two calls on one key -/

theorem trainKey_createBooking (srv : Server) (db : Database) (b : Booking) (hk : TrainKey db) :
    TrainKey (createBooking srv db b).db := by
  unfold TrainKey
  rw [createBooking_trains]
  exact hk

theorem createBooking_serial_not_both (srv : Server) (db : Database) (a b : Booking) (t : Train)
    (hk : TrainKey db) (ht : t ∈ db.trains) (ha : a.trainId = t.trainId)
    (hb : b.trainId = t.trainId) (hd : srv.date a.journeyDate = srv.date b.journeyDate)
    (hca : srv.label bookingStatusLabels a.bookingStatus = "Confirmed")
    (hover : getAvailableSeats srv db t.trainId a.journeyDate < a.numPassengers + b.numPassengers) :
    ¬ ((createBooking srv db a).returned = true
        ∧ (createBooking srv (createBooking srv db a).db b).returned = true) := by
  rintro ⟨h1, h2⟩
  have hk1 := trainKey_createBooking srv db a hk
  have ht1 : t ∈ (createBooking srv db a).db.trains := by
    rw [createBooking_trains]; exact ht
  have hc1 : committedSeats srv (createBooking srv db a).db t.trainId a.journeyDate
      = committedSeats srv db t.trainId a.journeyDate + a.numPassengers := by
    unfold createBooking at h1 ⊢
    rw [committedSeats_append db _ _ _ _ (createBookingFrom_true srv db a _ h1).2,
      seatsHeld_storedRow, if_pos ⟨ha, rfl, hca⟩]
  have hlt2 := ((createBookingFrom_returned srv _ b _).mp h2).1
  rw [hb, getAvailableSeats_of_mem _ t _ hk1 ht1,
    committedSeats_of_same_day _ t.trainId a.journeyDate b.journeyDate hd.symm, hc1] at hlt2
  rw [getAvailableSeats_of_mem db t _ hk ht] at hover
  omega

theorem sum_map_update (l : List BookingRow) (r : BookingRow) (g : BookingRow → Int)
    (f : BookingRow → BookingRow) (hk : (l.map (fun x => x.booking_id)).Nodup) (hr : r ∈ l)
    (hf : ∀ x, x.booking_id ≠ r.booking_id → f x = x) :
    (l.map (fun x => g (f x))).sum = (l.map g).sum - g r + g (f r) := by
  induction l with
  | nil => simp at hr
  | cons x xs ih =>
    rw [List.map_cons, List.nodup_cons] at hk
    rw [List.map_cons, List.sum_cons, List.map_cons, List.sum_cons]
    rcases List.mem_cons.mp hr with rfl | hmem
    · have hrest : xs.map (fun x => g (f x)) = xs.map g := by
        apply List.map_congr_left
        intro y hy
        rw [hf y]
        intro heq
        exact hk.1 (heq ▸ List.mem_map_of_mem (fun x => x.booking_id) hy)
      rw [hrest]
      omega
    · have hne : x.booking_id ≠ r.booking_id := by
        intro heq
        exact hk.1 (heq ▸ List.mem_map_of_mem (fun x => x.booking_id) hmem)
      rw [hf x hne, ih hk.2 hmem]
      omega

theorem committedSeats_cancel_confirmed {srv : Server} (db : Database) (r : BookingRow)
    (hbk : BookingKey db) (hr : r ∈ db.bookings) (hc : r.booking_status = "Confirmed") :
    committedSeats srv (cancelBooking db r.booking_id).db r.train_id r.journey_date
      = committedSeats srv db r.train_id r.journey_date - r.num_passengers := by
  rw [committedSeats_eq_sum, committedSeats_eq_sum]
  show ((db.bookings.map _).map _).sum = _
  rw [List.map_map]
  have h := sum_map_update db.bookings r (seatsHeld srv r.train_id r.journey_date)
    (fun x => if x.booking_id == r.booking_id then { x with booking_status := "Cancelled" } else x)
    hbk hr (fun x hx => by simp [hx])
  have h1 : seatsHeld srv r.train_id r.journey_date r = r.num_passengers := by
    unfold seatsHeld
    simp [hc]
  simp only [beq_self_eq_true, if_true, seatsHeld_cancelled, h1, add_zero] at h
  rw [← h]
  rfl

/-- C6: for a stored booking with status `Confirmed` on a train of the table (booking ids
and train ids being unique, as the primary keys demand), `getAvailableSeats` for the
booking's train and journey date is exactly `num_passengers` larger after
`cancelBooking(bookingId)` than before. -/
theorem cancelBooking_frees_seats (srv : Server) (db : Database) (r : BookingRow) (t : Train)
    (hk : TrainKey db) (hbk : BookingKey db) (hr : r ∈ db.bookings)
    (hc : r.booking_status = "Confirmed") (ht : t ∈ db.trains) (hrt : r.train_id = t.trainId) :
    getAvailableSeats srv (cancelBooking db r.booking_id).db r.train_id r.journey_date
      = getAvailableSeats srv db r.train_id r.journey_date + r.num_passengers := by
  have ht1 : t ∈ (cancelBooking db r.booking_id).db.trains := ht
  have hk1 : TrainKey (cancelBooking db r.booking_id).db := hk
  have hcs := @committedSeats_cancel_confirmed srv db r hbk hr hc
  rw [hrt] at hcs ⊢
  rw [getAvailableSeats_of_mem _ t _ hk1 ht1, getAvailableSeats_of_mem db t _ hk ht, hcs]
  omega

/-- Witness of C6, the scenario of the specification: capacity 2, A books 2, no seat is
available; after cancelling A two seats are available again. -/
theorem cancelBooking_frees_seats_witness :
    TrainKey bookedDb ∧ BookingKey bookedDb ∧ bookedRow ∈ bookedDb.bookings
      ∧ scenarioTrain ∈ bookedDb.trains
      ∧ getAvailableSeats schemaServer bookedDb 1 "2025-04-10" = 0
      ∧ getAvailableSeats schemaServer (cancelBooking bookedDb 1).db 1 "2025-04-10" = 2
      ∧ getAvailableSeats schemaServer (cancelBooking bookedDb bookedRow.booking_id).db
            bookedRow.train_id bookedRow.journey_date
          = getAvailableSeats schemaServer bookedDb bookedRow.train_id bookedRow.journey_date
            + bookedRow.num_passengers :=
  ⟨by decide, by decide, by decide, by decide, by decide, by decide,
    cancelBooking_frees_seats schemaServer bookedDb bookedRow scenarioTrain (by decide) (by decide)
      (by decide) (by decide) (by decide) (by decide)⟩

theorem cancelBooking_twice (db : Database) (id : Int) :
    (cancelBooking (cancelBooking db id).db id).db = (cancelBooking db id).db := by
  unfold cancelBooking
  simp only [List.map_map]
  congr 2
  funext r
  simp only [Function.comp]
  by_cases h : (r.booking_id == id) = true
  · simp [h]
  · simp [h]

/-- What a cancellation takes from the committed seats of any key: the seats the booking
held for that key. -/
theorem committedSeats_cancel {srv : Server} (db : Database) (r : BookingRow) (k : Int)
    (d : String) (hbk : BookingKey db) (hr : r ∈ db.bookings) :
    committedSeats srv (cancelBooking db r.booking_id).db k d
      = committedSeats srv db k d - seatsHeld srv k d r := by
  rw [committedSeats_eq_sum, committedSeats_eq_sum]
  show ((db.bookings.map _).map _).sum = _
  rw [List.map_map]
  have h := sum_map_update db.bookings r (seatsHeld srv k d)
    (fun x => if x.booking_id == r.booking_id then { x with booking_status := "Cancelled" } else x)
    hbk hr (fun x hx => by simp [hx])
  simp only [beq_self_eq_true, if_true, seatsHeld_cancelled, add_zero] at h
  rw [← h]
  rfl

theorem seatsHeld_of_confirmed {srv : Server} (r : BookingRow) (d : String)
    (hc : r.booking_status = "Confirmed") (hd : srv.date d = srv.date r.journey_date) :
    seatsHeld srv r.train_id d r = r.num_passengers := by
  unfold seatsHeld
  simp [hc, hd]

theorem cancelBooking_status (db : Database) (id : Int) :
    ∀ x ∈ (cancelBooking db id).db.bookings, x.booking_id = id →
      x.booking_status = "Cancelled" := by
  intro x hx hid
  unfold cancelBooking at hx
  obtain ⟨y, _, rfl⟩ := List.mem_map.mp hx
  by_cases h : (y.booking_id == id) = true
  · rw [if_pos h]
  · rw [if_neg h] at hid
    exact absurd (beq_iff_eq.mpr hid) h

/-- C7: for a stored booking `r` on a train of the table (booking ids and train ids being
unique, as the primary keys demand), `cancelBooking(r.booking_id)` called twice in a row
returns `true` both times; the database after the second call is the database after the
first call; after the first call the booking is stored as `Cancelled`; and the seats are
credited back exactly once: after the two calls the available seats of the train are,
for the day of the booking (under every spelling of it), `r.num_passengers` more than
before the calls when `r` was `Confirmed`, and for every date what they were before the
calls when `r` was not `Confirmed`. -/
theorem cancelBooking_idempotent (srv : Server) (db : Database) (r : BookingRow) (t : Train)
    (hk : TrainKey db) (hbk : BookingKey db) (hr : r ∈ db.bookings) (ht : t ∈ db.trains)
    (hrt : r.train_id = t.trainId) :
    (cancelBooking db r.booking_id).returned = true
      ∧ (cancelBooking (cancelBooking db r.booking_id).db r.booking_id).returned = true
      ∧ (cancelBooking (cancelBooking db r.booking_id).db r.booking_id).db
          = (cancelBooking db r.booking_id).db
      ∧ (∀ x ∈ (cancelBooking db r.booking_id).db.bookings,
          x.booking_id = r.booking_id → x.booking_status = "Cancelled")
      ∧ (r.booking_status = "Confirmed" →
          ∀ d : String, srv.date d = srv.date r.journey_date →
            getAvailableSeats srv
                (cancelBooking (cancelBooking db r.booking_id).db r.booking_id).db r.train_id d
              = getAvailableSeats srv db r.train_id d + r.num_passengers)
      ∧ (r.booking_status ≠ "Confirmed" →
          ∀ d : String,
            getAvailableSeats srv
                (cancelBooking (cancelBooking db r.booking_id).db r.booking_id).db r.train_id d
              = getAvailableSeats srv db r.train_id d) := by
  have ht1 : t ∈ (cancelBooking db r.booking_id).db.trains := ht
  have hk1 : TrainKey (cancelBooking db r.booking_id).db := hk
  refine ⟨rfl, rfl, cancelBooking_twice db _, cancelBooking_status db _, ?_, ?_⟩
  · intro hc d hd
    rw [cancelBooking_twice, hrt, getAvailableSeats_of_mem _ t d hk1 ht1,
      getAvailableSeats_of_mem db t d hk ht, ← hrt, committedSeats_cancel db r _ d hbk hr,
      seatsHeld_of_confirmed r d hc hd]
    omega
  · intro hc d
    rw [cancelBooking_twice, hrt, getAvailableSeats_of_mem _ t d hk1 ht1,
      getAvailableSeats_of_mem db t d hk ht, ← hrt, committedSeats_cancel db r _ d hbk hr,
      seatsHeld_eq_zero_of_status _ d r hc]
    omega

/-- Witness of C7: booking 1 holds both seats of the two-seat train; after cancelling it
twice, two seats are available, not four. -/
theorem cancelBooking_idempotent_witness :
    TrainKey bookedDb ∧ BookingKey bookedDb ∧ bookedRow ∈ bookedDb.bookings
      ∧ scenarioTrain ∈ bookedDb.trains
      ∧ bookedRow.num_passengers = 2
      ∧ getAvailableSeats schemaServer bookedDb 1 "2025-04-10" = 0
      ∧ getAvailableSeats schemaServer
          (cancelBooking (cancelBooking bookedDb bookedRow.booking_id).db
            bookedRow.booking_id).db bookedRow.train_id "2025-04-10"
          = getAvailableSeats schemaServer bookedDb bookedRow.train_id "2025-04-10"
            + bookedRow.num_passengers :=
  ⟨by decide, by decide, by decide, by decide, by decide, by decide,
    (cancelBooking_idempotent schemaServer bookedDb bookedRow scenarioTrain (by decide)
      (by decide) (by decide) (by decide) (by decide)).2.2.2.2.1 (by decide) "2025-04-10"
      (by decide)⟩

/-- C8, as stated, fails: in the database without any booking, `cancelBooking(42)`
returns `true`. -/
theorem cancelBooking_unknown_id_returns_true :
    (∀ r ∈ scenarioDb.bookings, r.booking_id ≠ 42)
      ∧ (cancelBooking scenarioDb 42).returned = true := by
  decide

/-- C8 (amended): `cancelBooking(id)` returns `true` for every booking id, whether or not a
row has that id; when no row of `bookings` has the id, the database is left as it was. -/
theorem cancelBooking_returns_true (db : Database) (id : Int) :
    (cancelBooking db id).returned = true
      ∧ ((∀ r ∈ db.bookings, r.booking_id ≠ id) → (cancelBooking db id).db = db) := by
  refine ⟨rfl, fun h => ?_⟩
  unfold cancelBooking
  have hmap : db.bookings.map (fun r =>
      if r.booking_id == id then { r with booking_status := "Cancelled" } else r)
      = db.bookings := by
    conv_rhs => rw [← List.map_id db.bookings]
    apply List.map_congr_left
    intro r hr
    simp [h r hr]
  simp only [hmap]

/-- Witness of C8 (amended): the id 42 in the database without any booking. -/
theorem cancelBooking_returns_true_witness :
    (∀ r ∈ scenarioDb.bookings, r.booking_id ≠ 42)
      ∧ (cancelBooking scenarioDb 42).db = scenarioDb :=
  ⟨by decide, (cancelBooking_returns_true scenarioDb 42).2 (by decide)⟩

/-! ## C9, C10: payment and passenger persistence -/

/-- C9, as stated, fails: `processPayment` on the cancelled booking 1 returns `true` and
the row, still `Cancelled`, has payment status `Paid`; the same happens to the `Waiting`
booking 2 of `mixedStatusDb`. -/
theorem processPayment_pays_cancelled_booking :
    cancelledDb.bookings = [{ bookedRow with booking_status := "Cancelled" }]
      ∧ (processPayment schemaServer cancelledDb 1 "UPI Payment").returned = true
      ∧ (processPayment schemaServer cancelledDb 1 "UPI Payment").db.bookings
          = [{ bookedRow with booking_status := "Cancelled", payment_status := "Paid" }]
      ∧ (processPayment schemaServer mixedStatusDb 2 "UPI Payment").returned = true
      ∧ ((processPayment schemaServer mixedStatusDb 2 "UPI Payment").db.bookings.filter
            (fun r => r.booking_id == 2)).map
            (fun r => (r.booking_status, r.payment_status))
          = [("Waiting", "Paid")] := by
  decide

theorem label_paid (srv : Server) : srv.label paymentStatusLabels "Paid" = "Paid" :=
  srv.label_paymentStatus "Paid" (by decide)

theorem updatePaymentStatus_accepted (srv : Server) (db : Database) (id : Int) (s : String)
    (hs : ∀ r ∈ db.bookings, r.booking_id = id → srv.setPaymentStatus r s = true) :
    updatePaymentStatus srv db id s
      = { returned := true
          db :=
            { db with
              bookings := db.bookings.map (fun r =>
                if r.booking_id == id then
                  { r with payment_status := srv.label paymentStatusLabels s }
                else r) } } := by
  unfold updatePaymentStatus
  rw [if_pos]
  rw [List.all_eq_true]
  intro r hr
  rw [List.mem_filter] at hr
  exact hs r hr.1 (beq_iff_eq.mp hr.2)

/-- C9 (amended): `processPayment`, that is `updatePaymentStatus(id, "Paid")`, does not
look at the booking's status: whenever the server accepts the statement it returns `true`
and the booking with that id gets payment status `Paid`, be its status `Confirmed`,
`Waiting` or `Cancelled`; no booking status changes. -/
theorem processPayment_pays_any_status (srv : Server) (db : Database) (id : Int)
    (method : String)
    (hs : ∀ r ∈ db.bookings, r.booking_id = id → srv.setPaymentStatus r "Paid" = true) :
    (updatePaymentStatus srv db id "Paid").returned = true
      ∧ (processPayment srv db id method).returned = true
      ∧ (∀ r ∈ db.bookings, r.booking_id = id →
          { r with payment_status := "Paid" } ∈ (processPayment srv db id method).db.bookings)
      ∧ (processPayment srv db id method).db.bookings.map (fun r => r.booking_status)
          = db.bookings.map (fun r => r.booking_status) := by
  have hu := updatePaymentStatus_accepted srv db id "Paid" hs
  unfold processPayment
  rw [hu, label_paid]
  refine ⟨rfl, rfl, ?_, ?_⟩
  · intro r hr hid
    simp only [if_true]
    apply List.mem_map.mpr
    exact ⟨r, hr, by simp [hid]⟩
  · simp only [if_true, List.map_map]
    apply List.map_congr_left
    intro r _
    simp only [Function.comp]
    split <;> rfl

/-- Witness of C9 (amended): paying the cancelled booking 1. -/
theorem processPayment_pays_any_status_witness :
    (∀ r ∈ cancelledDb.bookings, r.booking_id = 1 →
        schemaServer.setPaymentStatus r "Paid" = true)
      ∧ (processPayment schemaServer cancelledDb 1 "UPI Payment").returned = true :=
  ⟨by decide,
    (processPayment_pays_any_status schemaServer cancelledDb 1 "UPI Payment"
      (by decide)).2.1⟩

/-- C10, the code at the failing input: on the empty two-seat train a `Confirmed` request
for one passenger with gender `M` passes the availability check, its booking row is
inserted, `addPassengers` fails on the passenger row, and `createBooking` still returns
`true`; the booking stays without any passenger row and `getAvailableSeats` is 1 where it
was 2 before the call. -/
theorem createBooking_ignores_addPassengers_failure :
    ¬ getAvailableSeats schemaServer scenarioDb 1 "2025-04-10" < unknownGenderRequest.numPassengers
      ∧ schemaServer.insertBooking (storedRow schemaServer scenarioDb unknownGenderRequest) = true
      ∧ (addPassengers schemaServer
          { scenarioDb with
            bookings := scenarioDb.bookings ++ [storedRow schemaServer scenarioDb unknownGenderRequest]
            nextBookingId := scenarioDb.nextBookingId + 1 }
          1 unknownGenderRequest.passengers).1 = false
      ∧ (createBooking schemaServer scenarioDb unknownGenderRequest).returned = true
      ∧ (createBooking schemaServer scenarioDb unknownGenderRequest).db.bookings
          = [storedRow schemaServer scenarioDb unknownGenderRequest]
      ∧ (createBooking schemaServer scenarioDb unknownGenderRequest).db.passengers = []
      ∧ getAvailableSeats schemaServer scenarioDb 1 "2025-04-10" = 2
      ∧ getAvailableSeats schemaServer (createBooking schemaServer scenarioDb unknownGenderRequest).db
          1 "2025-04-10" = 1 := by
  decide

/-! ## C12, C14, C15: status and fare of an accepted booking -/

theorem createBooking_accepted (srv : Server) (db : Database) (b : Booking)
    (h : (createBooking srv db b).returned = true) :
    createBooking srv db b
      = { returned := true
          booking :=
            { b with
              totalFare := calculateFare b.trainId b.numPassengers
              bookingId := db.nextBookingId }
          db :=
            (addPassengers srv
              { db with
                bookings := db.bookings ++ [storedRow srv db b]
                nextBookingId := db.nextBookingId + 1 }
              db.nextBookingId b.passengers).2 } := by
  unfold createBooking at h ⊢
  obtain ⟨hlt, hs⟩ := (createBookingFrom_returned srv db b _).mp h
  exact createBookingFrom_stored srv db b _ hlt hs

theorem createBooking_bookings (srv : Server) (db : Database) (b : Booking)
    (h : (createBooking srv db b).returned = true) :
    (createBooking srv db b).db.bookings = db.bookings ++ [storedRow srv db b] := by
  rw [createBooking_accepted srv db b h]
  exact addPassengers_bookings _ _ _ _

/-- C12, as stated, fails: a `Booking` object that carries the status `Cancelled` and the
payment status `Paid` is accepted on the empty two-seat train, and it is returned and
stored with exactly these two values. -/
theorem createBooking_stores_cancelled_paid :
    (createBooking schemaServer scenarioDb cancelledPaidRequest).returned = true
      ∧ (createBooking schemaServer scenarioDb cancelledPaidRequest).booking.bookingStatus
          = "Cancelled"
      ∧ (createBooking schemaServer scenarioDb cancelledPaidRequest).booking.paymentStatus
          = "Paid"
      ∧ (createBooking schemaServer scenarioDb cancelledPaidRequest).db.bookings.map
            (fun r => (r.booking_status, r.payment_status))
          = [("Cancelled", "Paid")] := by
  decide

/-- C12 (amended): every booking that `createBooking` accepts is returned with the
`bookingStatus` and the `paymentStatus` that the `Booking` object passed in carries, and
stored with the labels the server reads these two strings as, which are the strings
themselves when they are labels of the columns; the object that `Menu::bookTicket` passes
in carries `Confirmed` and `Pending`, whatever the user types, and these are stored as
`Confirmed` and `Pending`. -/
theorem createBooking_keeps_status (srv : Server) (db : Database) (b : Booking)
    (h : (createBooking srv db b).returned = true) :
    (createBooking srv db b).booking.bookingStatus = b.bookingStatus
      ∧ (createBooking srv db b).booking.paymentStatus = b.paymentStatus
      ∧ (createBooking srv db b).db.bookings.map (fun r => (r.booking_status, r.payment_status))
          = db.bookings.map (fun r => (r.booking_status, r.payment_status))
            ++ [(srv.label bookingStatusLabels b.bookingStatus,
                  srv.label paymentStatusLabels b.paymentStatus)]
      ∧ (b.bookingStatus ∈ bookingStatusLabels → b.paymentStatus ∈ paymentStatusLabels →
          (createBooking srv db b).db.bookings.map
              (fun r => (r.booking_status, r.payment_status))
            = db.bookings.map (fun r => (r.booking_status, r.payment_status))
              ++ [(b.bookingStatus, b.paymentStatus)])
      ∧ ∀ (userId : Int) (currentDate : String) (input : BookTicketInput),
          (bookTicketBooking userId currentDate input).bookingStatus = "Confirmed"
            ∧ (bookTicketBooking userId currentDate input).paymentStatus = "Pending"
            ∧ srv.label bookingStatusLabels
                (bookTicketBooking userId currentDate input).bookingStatus = "Confirmed"
            ∧ srv.label paymentStatusLabels
                (bookTicketBooking userId currentDate input).paymentStatus = "Pending" := by
  have hstored : (createBooking srv db b).db.bookings.map
        (fun r => (r.booking_status, r.payment_status))
      = db.bookings.map (fun r => (r.booking_status, r.payment_status))
        ++ [(srv.label bookingStatusLabels b.bookingStatus,
              srv.label paymentStatusLabels b.paymentStatus)] := by
    rw [createBooking_bookings srv db b h, List.map_append]
    rfl
  refine ⟨?_, ?_, hstored, ?_, fun _ _ _ => ⟨rfl, rfl, ?_, ?_⟩⟩
  · rw [createBooking_accepted srv db b h]
  · rw [createBooking_accepted srv db b h]
  · intro hb hp
    rw [hstored, srv.label_bookingStatus _ hb, srv.label_paymentStatus _ hp]
  · exact srv.label_bookingStatus "Confirmed" (by decide)
  · exact srv.label_paymentStatus "Pending" (by decide)

/-- Witness of C12 (amended): the request that carries `confirmed` and `pending` is
returned with `confirmed` and `pending` and stored with `Confirmed` and `Pending`. -/
theorem createBooking_keeps_status_witness :
    (createBooking schemaServer scenarioDb looseRequest).returned = true
      ∧ (createBooking schemaServer scenarioDb looseRequest).booking.bookingStatus
          = "confirmed"
      ∧ (createBooking schemaServer scenarioDb looseRequest).db.bookings.map
            (fun r => (r.booking_status, r.payment_status))
          = [("Confirmed", "Pending")]
      ∧ (createBooking schemaServer scenarioDb looseRequest).db.bookings.map
            (fun r => (r.booking_status, r.payment_status))
          = scenarioDb.bookings.map (fun r => (r.booking_status, r.payment_status))
            ++ [(schemaServer.label bookingStatusLabels looseRequest.bookingStatus,
                  schemaServer.label paymentStatusLabels looseRequest.paymentStatus)] :=
  ⟨by decide, by decide, by decide,
    (createBooking_keeps_status schemaServer scenarioDb looseRequest (by decide)).2.2.1⟩

/-- C14: for every request that `createBooking` accepts, the fare returned in the `Booking`
object and the fare of the row appended to `bookings` are `50 * numPassengers`, whatever
fare the object carried when it was passed in; for two passengers that is `2 * 50`.  (The
other columns of the row are the fields of the object, dates and statuses as the server
reads them.) -/
theorem createBooking_fare (srv : Server) (db : Database) (b : Booking)
    (h : (createBooking srv db b).returned = true) :
    (createBooking srv db b).booking.totalFare = 50 * b.numPassengers
      ∧ (createBooking srv db b).db.bookings
          = db.bookings ++
            [{ booking_id := db.nextBookingId
               user_id := b.userId
               train_id := b.trainId
               booking_date := srv.date b.bookingDate
               journey_date := srv.date b.journeyDate
               num_passengers := b.numPassengers
               total_fare := 50 * b.numPassengers
               booking_status := srv.label bookingStatusLabels b.bookingStatus
               payment_status := srv.label paymentStatusLabels b.paymentStatus }]
      ∧ (b.numPassengers = 2 → (createBooking srv db b).booking.totalFare = 2 * 50) := by
  refine ⟨?_, ?_, ?_⟩
  · rw [createBooking_accepted srv db b h]
    rfl
  · rw [createBooking_bookings srv db b h]
    rfl
  · intro h2
    rw [createBooking_accepted srv db b h]
    show calculateFare b.trainId b.numPassengers = 2 * 50
    rw [h2]
    rfl

/-- Witness of C14: request A of the scenario, passed in with fare `0`, gets the fare
`100`. -/
theorem createBooking_fare_witness :
    (createBooking schemaServer scenarioDb requestA).returned = true
      ∧ requestA.totalFare = 0
      ∧ (createBooking schemaServer scenarioDb requestA).booking.totalFare
          = 50 * requestA.numPassengers :=
  ⟨by decide, by decide, (createBooking_fare schemaServer scenarioDb requestA (by decide)).1⟩

/-- C15: `calculateFare` is a total function that does not depend on the train id, is
non-decreasing in the passenger count from 1 upwards, and is never negative there. -/
theorem calculateFare_monotone (t t' m n : Int) (hm : 1 ≤ m) (hmn : m ≤ n) :
    calculateFare t m ≤ calculateFare t' n
      ∧ 0 ≤ calculateFare t n
      ∧ calculateFare t n = calculateFare t' n := by
  unfold calculateFare
  refine ⟨?_, ?_, rfl⟩
  · show (50 : Int) * m ≤ 50 * n
    omega
  · show (0 : Int) ≤ 50 * n
    omega

/-- Witness of C15: one passenger on train 1 against two passengers on train 2. -/
theorem calculateFare_monotone_witness :
    (1 : Int) ≤ 1 ∧ (1 : Int) ≤ 2 ∧ calculateFare 1 1 ≤ calculateFare 2 2 :=
  ⟨by decide, by decide, (calculateFare_monotone 1 2 1 2 (by decide) (by decide)).1⟩

/-! ## C16: seat labels -/

theorem digitChar_value (k : Nat) (hk : k < 10) : (Nat.digitChar k).toNat - 48 = k := by
  interval_cases k <;> rfl

theorem decimalValue_toDigitsCore (fuel : Nat) :
    ∀ (n : Nat) (ds : List Char), n < fuel →
      decimalValue (Nat.toDigitsCore 10 fuel n ds) 0 = decimalValue ds n := by
  induction fuel with
  | zero => intro n ds h; omega
  | succ fuel ih =>
    intro n ds h
    unfold Nat.toDigitsCore
    simp only []
    split
    next h0 =>
      show List.foldl _ _ _ = _
      rw [List.foldl_cons, digitChar_value _ (Nat.mod_lt _ (by decide))]
      have : n % 10 = n := by omega
      rw [Nat.zero_mul, Nat.zero_add, this]
      rfl
    next h0 =>
      rw [ih (n / 10) _ (by omega)]
      show List.foldl _ _ _ = _
      rw [List.foldl_cons, digitChar_value _ (Nat.mod_lt _ (by decide))]
      have : n / 10 * 10 + n % 10 = n := by omega
      rw [this]
      rfl

theorem decimalValue_repr (n : Nat) : decimalValue (Nat.repr n).toList 0 = n := by
  unfold Nat.repr Nat.toDigits
  rw [List.toList_asString]
  exact decimalValue_toDigitsCore (n + 1) n [] (by omega)

theorem seatLabel_injective (i j : Nat)
    (h : "A" ++ toString (i + 1) = "A" ++ toString (j + 1)) : i = j := by
  have h1 : ("A" ++ toString (i + 1)).data = ("A" ++ toString (j + 1)).data := by rw [h]
  rw [String.data_append, String.data_append] at h1
  have h2 := List.append_cancel_left h1
  have h3 : decimalValue (Nat.repr (i + 1)).toList 0 = decimalValue (Nat.repr (j + 1)).toList 0 := by
    show decimalValue (toString (i + 1)).data 0 = decimalValue (toString (j + 1)).data 0
    rw [h2]
  rw [decimalValue_repr, decimalValue_repr] at h3
  omega

/-- C16: the booking that `Menu::bookTicket` assembles for `n ≥ 1` passengers has `n`
passengers; the passenger at position `i` (counted from 0, so the `i+1`-th in input order)
carries the answers typed in round `i` and the label `"A"` followed by the decimal digits
of `i + 1`; the labels are `A1, A2, …, An` in this order and no two of them are equal. -/
theorem bookTicket_seat_labels (userId : Int) (currentDate : String) (input : BookTicketInput)
    (n : Nat) (_hn : 1 ≤ n) (hin : input.numPassengers = n) :
    (bookTicketBooking userId currentDate input).passengers.length = n
      ∧ (∀ i : Nat, i < n →
          ((bookTicketBooking userId currentDate input).passengers.map
              (fun p => p.seatNumber))[i]? = some ("A" ++ toString (i + 1))
            ∧ ((bookTicketBooking userId currentDate input).passengers.map
              (fun p => p.passengerName))[i]? = some (input.passengers i).name)
      ∧ (bookTicketBooking userId currentDate input).passengers.map (fun p => p.seatNumber)
          = (List.range n).map (fun i => "A" ++ toString (i + 1))
      ∧ ((bookTicketBooking userId currentDate input).passengers.map
          (fun p => p.seatNumber)).Nodup := by
  have hp : (bookTicketBooking userId currentDate input).passengers
      = (List.range n).map (bookTicketPassenger input.passengers) := by
    unfold bookTicketBooking
    simp only [hin, Int.toNat_ofNat]
  have hl : (bookTicketBooking userId currentDate input).passengers.map (fun p => p.seatNumber)
      = (List.range n).map (fun i => "A" ++ toString (i + 1)) := by
    rw [hp, List.map_map]
    rfl
  refine ⟨by rw [hp, List.length_map, List.length_range], ?_, hl, ?_⟩
  · intro i hi
    constructor
    · rw [hl, List.getElem?_map, List.getElem?_range hi]
      rfl
    · rw [hp, List.map_map, List.getElem?_map, List.getElem?_range hi]
      rfl
  · rw [hl]
    apply List.Nodup.map_on _ (List.nodup_range n)
    intro i _ j _ hij
    exact seatLabel_injective i j hij

/-- Witness of C16: three passengers get the labels `A1`, `A2`, `A3`. -/
theorem bookTicket_seat_labels_witness :
    1 ≤ 3 ∧ threePassengersInput.numPassengers = (3 : Nat)
      ∧ (bookTicketBooking 7 "2025-04-01" threePassengersInput).passengers.map
            (fun p => p.seatNumber) = ["A1", "A2", "A3"]
      ∧ ((bookTicketBooking 7 "2025-04-01" threePassengersInput).passengers.map
            (fun p => p.seatNumber)).Nodup :=
  ⟨by decide, by decide, by decide,
    (bookTicket_seat_labels 7 "2025-04-01" threePassengersInput 3 (by decide)
      (by decide)).2.2.2⟩

/-! ## C11: reading a booking back -/

theorem addPassengers_nextBookingId (srv : Server) (bookingId : Int) (ps : List Passenger) :
    ∀ db : Database, (addPassengers srv db bookingId ps).2.nextBookingId = db.nextBookingId := by
  induction ps with
  | nil => intro db; rfl
  | cons p ps ih =>
    intro db
    unfold addPassengers
    split
    · rw [ih]
    · rfl

theorem addPassengers_passengers (srv : Server) (bookingId : Int) (ps : List Passenger) :
    ∀ db : Database, ∃ rows : List PassengerRow,
      (addPassengers srv db bookingId ps).2.passengers = db.passengers ++ rows
        ∧ ∀ r ∈ rows, r.booking_id = bookingId := by
  induction ps with
  | nil => intro db; exact ⟨[], by simp [addPassengers], by simp⟩
  | cons p ps ih =>
    intro db
    unfold addPassengers
    split
    · obtain ⟨rows, h1, h2⟩ := ih
        { db with
          passengers := db.passengers ++ [passengerRow srv db bookingId p]
          nextPassengerId := db.nextPassengerId + 1 }
      refine ⟨passengerRow srv db bookingId p :: rows, ?_, ?_⟩
      · rw [h1]; simp
      · intro r hr
        rcases List.mem_cons.mp hr with rfl | hr
        · rfl
        · exact h2 r hr
    · exact ⟨[], by simp, by simp⟩

theorem addPassengers_all_accepted (srv : Server) (bookingId : Int) (ps : List Passenger)
    (hs : ∀ p ∈ ps, ∀ db : Database, srv.insertPassenger (passengerRow srv db bookingId p) = true) :
    ∀ db : Database,
      (addPassengers srv db bookingId ps).1 = true
        ∧ (addPassengers srv db bookingId ps).2.passengers
            = db.passengers ++ insertedPassengerRows srv db.nextPassengerId bookingId ps := by
  induction ps with
  | nil => intro db; simp [addPassengers, insertedPassengerRows]
  | cons p ps ih =>
    intro db
    unfold addPassengers
    rw [if_pos (hs p (List.mem_cons_self _ _) db)]
    obtain ⟨h1, h2⟩ := ih (fun q hq => hs q (List.mem_cons_of_mem _ hq))
      { db with
        passengers := db.passengers ++ [passengerRow srv db bookingId p]
        nextPassengerId := db.nextPassengerId + 1 }
    refine ⟨h1, ?_⟩
    rw [h2]
    simp [insertedPassengerRows, passengerRow]

theorem insertedPassengerRows_booking_id {srv : Server} (bookingId : Int) (ps : List Passenger) :
    ∀ start : Int, ∀ r ∈ insertedPassengerRows srv start bookingId ps, r.booking_id = bookingId := by
  induction ps with
  | nil => intro _ r hr; simp [insertedPassengerRows] at hr
  | cons p ps ih =>
    intro start r hr
    rcases List.mem_cons.mp hr with rfl | hr
    · rfl
    · exact ih _ r hr

theorem insertedPassengerRows_length {srv : Server} (bookingId : Int) (ps : List Passenger) :
    ∀ start : Int, (insertedPassengerRows srv start bookingId ps).length = ps.length := by
  induction ps with
  | nil => intro _; rfl
  | cons p ps ih => intro start; simp [insertedPassengerRows, ih]

theorem insertedPassengerRows_details {srv : Server} (bookingId : Int) (ps : List Passenger) :
    ∀ start : Int,
      ((insertedPassengerRows srv start bookingId ps).map passengerOfRow).map passengerDetails
        = ps.map (fun p =>
            (p.passengerName, p.age, srv.label genderLabels p.gender, p.seatNumber)) := by
  induction ps with
  | nil => intro _; rfl
  | cons p ps ih =>
    intro start
    simp only [insertedPassengerRows, List.map_cons, ih]
    rfl

theorem filter_eq_self_of_all {α : Type} (p : α → Bool) (l : List α) (h : ∀ x ∈ l, p x = true) :
    l.filter p = l :=
  List.filter_eq_self.mpr h

theorem filter_eq_nil_of_none {α : Type} (p : α → Bool) (l : List α)
    (h : ∀ x ∈ l, p x = false) : l.filter p = [] :=
  List.filter_eq_nil_iff.mpr (fun x hx => by simp [h x hx])

/-- Round trip when nothing is refused: if `createBooking` accepts `b`, the ids stored so
far are below the counter, and the server accepts every passenger row of `b`, then
`getBookingById` with the id set in the returned object finds a booking with the same
passenger count, the same fare, and the passengers of `b` with their names, ages, genders
(as the labels the server reads them as) and seat labels in the same order. -/
theorem getBookingById_createBooking (srv : Server) (db : Database) (b : Booking)
    (h : (createBooking srv db b).returned = true) (hids : IdsBelowCounter db)
    (hs : ∀ p ∈ b.passengers, ∀ (db1 : Database) (id : Int),
      srv.insertPassenger (passengerRow srv db1 id p) = true) :
    ∃ g : Booking,
      getBookingById (createBooking srv db b).db (createBooking srv db b).booking.bookingId
          = some g
        ∧ g.numPassengers = b.numPassengers
        ∧ g.totalFare = (createBooking srv db b).booking.totalFare
        ∧ g.passengers.map passengerDetails
            = b.passengers.map (fun p =>
                (p.passengerName, p.age, srv.label genderLabels p.gender, p.seatNumber)) := by
  have hb := createBooking_bookings srv db b h
  have hacc := createBooking_accepted srv db b h
  have hid : (createBooking srv db b).booking.bookingId = db.nextBookingId := by rw [hacc]
  have hfare : (createBooking srv db b).booking.totalFare
      = calculateFare b.trainId b.numPassengers := by rw [hacc]
  have hp : (createBooking srv db b).db.passengers
      = db.passengers ++ insertedPassengerRows srv db.nextPassengerId db.nextBookingId b.passengers := by
    rw [hacc]
    exact (addPassengers_all_accepted srv db.nextBookingId b.passengers
      (fun p hp db1 => hs p hp db1 _) _).2
  have hrows : (createBooking srv db b).db.bookings.filter
      (fun r => r.booking_id == db.nextBookingId) = [storedRow srv db b] := by
    rw [hb, List.filter_append, filter_eq_nil_of_none _ db.bookings]
    · simp [storedRow, bookingRow]
    · intro r hr
      have := hids.1 r hr
      simp only [beq_eq_false_iff_ne, ne_eq]
      omega
  refine ⟨bookingOfRow (createBooking srv db b).db (storedRow srv db b), ?_, rfl, ?_, ?_⟩
  · unfold getBookingById
    rw [hid, hrows]
  · rw [hfare]; rfl
  · show ((List.filter _ (createBooking srv db b).db.passengers).map passengerOfRow).map
      passengerDetails = _
    rw [hp, List.filter_append, filter_eq_nil_of_none _ db.passengers,
      filter_eq_self_of_all, List.nil_append, insertedPassengerRows_details]
    · intro r hr
      rw [insertedPassengerRows_booking_id _ _ _ r hr]
      simp [storedRow, bookingRow]
    · intro r hr
      have := hids.2 r hr
      have hne : r.booking_id ≠ db.nextBookingId := by omega
      simpa [storedRow, bookingRow] using hne

/-- C11, the code at the failing input: `createBooking` accepts the request for one
passenger with gender `M` on the empty two-seat train, and `getBookingById` with the id it
returned finds a booking for one passenger whose passenger list is empty, while the
request carries one passenger. -/
theorem createBooking_round_trip_loses_passengers :
    (createBooking schemaServer scenarioDb unknownGenderRequest).returned = true
      ∧ (createBooking schemaServer scenarioDb unknownGenderRequest).booking.bookingId = 1
      ∧ (getBookingById (createBooking schemaServer scenarioDb unknownGenderRequest).db 1).map
            (fun g => (g.numPassengers, g.passengers.map passengerDetails))
          = some (1, [])
      ∧ unknownGenderRequest.passengers.map passengerDetails = [("Mina", 30, "M", "A1")] := by
  decide

/-! ## C13: passenger counts -/

/-- C13, as stated, fails: `createBooking` accepts a request for two passengers whose
passenger list holds one passenger, and the stored booking then has `num_passengers = 2`
and one passenger row. -/
theorem createBooking_accepts_short_passenger_list :
    PassengerCountsMatch scenarioDb
      ∧ (createBooking schemaServer scenarioDb shortListRequest).returned = true
      ∧ (createBooking schemaServer scenarioDb shortListRequest).db.bookings.map
          (fun r => r.num_passengers) = [2]
      ∧ (createBooking schemaServer scenarioDb shortListRequest).db.passengers.length = 1
      ∧ ¬ PassengerCountsMatch (createBooking schemaServer scenarioDb shortListRequest).db := by
  decide

theorem createBooking_nextBookingId (srv : Server) (db : Database) (b : Booking)
    (h : (createBooking srv db b).returned = true) :
    (createBooking srv db b).db.nextBookingId = db.nextBookingId + 1 := by
  rw [createBooking_accepted srv db b h]
  exact addPassengers_nextBookingId _ _ _ _

theorem createBooking_passengers (srv : Server) (db : Database) (b : Booking)
    (h : (createBooking srv db b).returned = true) :
    ∃ rows : List PassengerRow,
      (createBooking srv db b).db.passengers = db.passengers ++ rows
        ∧ ∀ r ∈ rows, r.booking_id = db.nextBookingId := by
  rw [createBooking_accepted srv db b h]
  exact addPassengers_passengers _ _ _ _

theorem createBooking_passengers_accepted (srv : Server) (db : Database) (b : Booking)
    (h : (createBooking srv db b).returned = true)
    (hs : ∀ p ∈ b.passengers, ∀ (db1 : Database) (id : Int),
      srv.insertPassenger (passengerRow srv db1 id p) = true) :
    (createBooking srv db b).db.passengers
      = db.passengers ++ insertedPassengerRows srv db.nextPassengerId db.nextBookingId b.passengers := by
  rw [createBooking_accepted srv db b h]
  exact (addPassengers_all_accepted srv db.nextBookingId b.passengers
    (fun p hp db1 => hs p hp db1 _) _).2

theorem idsBelowCounter_createBooking (srv : Server) (db : Database) (b : Booking)
    (hids : IdsBelowCounter db) : IdsBelowCounter (createBooking srv db b).db := by
  cases h : (createBooking srv db b).returned
  · have hdb : (createBooking srv db b).db = db := createBookingFrom_false srv db b _ h
    rw [hdb]; exact hids
  · obtain ⟨rows, hp, hrows⟩ := createBooking_passengers srv db b h
    constructor
    · intro r hr
      rw [createBooking_nextBookingId srv db b h]
      rw [createBooking_bookings srv db b h] at hr
      rcases List.mem_append.mp hr with hr | hr
      · have := hids.1 r hr; omega
      · rw [List.mem_singleton.mp hr]
        show db.nextBookingId < _
        omega
    · intro p hpm
      rw [createBooking_nextBookingId srv db b h]
      rw [hp] at hpm
      rcases List.mem_append.mp hpm with hpm | hpm
      · have := hids.2 p hpm; omega
      · rw [hrows p hpm]; omega

theorem passengerCountsMatch_createBooking (srv : Server) (db : Database) (b : Booking)
    (hids : IdsBelowCounter db) (hm : PassengerCountsMatch db)
    (hn : b.numPassengers = b.passengers.length)
    (hs : ∀ p ∈ b.passengers, ∀ (db1 : Database) (id : Int),
      srv.insertPassenger (passengerRow srv db1 id p) = true) :
    PassengerCountsMatch (createBooking srv db b).db := by
  cases h : (createBooking srv db b).returned
  · have hdb : (createBooking srv db b).db = db := createBookingFrom_false srv db b _ h
    rw [hdb]; exact hm
  · intro r hr
    rw [createBooking_passengers_accepted srv db b h hs, List.filter_append, List.length_append]
    rw [createBooking_bookings srv db b h] at hr
    rcases List.mem_append.mp hr with hr | hr
    · rw [filter_eq_nil_of_none _ (insertedPassengerRows srv _ _ _)]
      · simpa using hm r hr
      · intro p hp
        rw [insertedPassengerRows_booking_id _ _ _ p hp]
        have := hids.1 r hr
        simp only [beq_eq_false_iff_ne, ne_eq]
        omega
    · rw [List.mem_singleton.mp hr, filter_eq_nil_of_none _ db.passengers,
        filter_eq_self_of_all, insertedPassengerRows_length]
      · simpa [storedRow, bookingRow] using hn
      · intro p hp
        rw [insertedPassengerRows_booking_id _ _ _ p hp]
        simp [storedRow, bookingRow]
      · intro p hp
        have := hids.2 p hp
        have hne : p.booking_id ≠ db.nextBookingId := by omega
        simpa [storedRow, bookingRow] using hne

theorem passengerCountsMatch_map (db db1 : Database) (f : BookingRow → BookingRow)
    (hf : ∀ r, (f r).booking_id = r.booking_id ∧ (f r).num_passengers = r.num_passengers)
    (hb : db1.bookings = db.bookings.map f) (hp : db1.passengers = db.passengers)
    (hm : PassengerCountsMatch db) : PassengerCountsMatch db1 := by
  intro r hr
  rw [hb] at hr
  obtain ⟨r0, hr0, rfl⟩ := List.mem_map.mp hr
  rw [hp, (hf r0).1, (hf r0).2]
  exact hm r0 hr0

theorem idsBelowCounter_map (db db1 : Database) (f : BookingRow → BookingRow)
    (hf : ∀ r, (f r).booking_id = r.booking_id)
    (hb : db1.bookings = db.bookings.map f) (hp : db1.passengers = db.passengers)
    (hn : db1.nextBookingId = db.nextBookingId)
    (hids : IdsBelowCounter db) : IdsBelowCounter db1 := by
  constructor
  · intro r hr
    rw [hb] at hr
    obtain ⟨r0, hr0, rfl⟩ := List.mem_map.mp hr
    rw [hn, hf r0]
    exact hids.1 r0 hr0
  · intro p hpm
    rw [hp] at hpm
    rw [hn]
    exact hids.2 p hpm

theorem cancelBooking_row (id : Int) (r : BookingRow) :
    (if r.booking_id == id then { r with booking_status := "Cancelled" } else r).booking_id
        = r.booking_id
      ∧ (if r.booking_id == id then { r with booking_status := "Cancelled" } else r).num_passengers
        = r.num_passengers := by
  split <;> exact ⟨rfl, rfl⟩

theorem paymentStatus_row (id : Int) (s : String) (r : BookingRow) :
    (if r.booking_id == id then { r with payment_status := s } else r).booking_id
        = r.booking_id
      ∧ (if r.booking_id == id then { r with payment_status := s } else r).num_passengers
        = r.num_passengers := by
  split <;> exact ⟨rfl, rfl⟩

theorem apply_preserves_counts (srv : Server) (db : Database) (c : Call)
    (hc : ∀ b, c = Call.createBooking b →
      b.numPassengers = b.passengers.length
        ∧ ∀ p ∈ b.passengers, ∀ (db1 : Database) (id : Int),
            srv.insertPassenger (passengerRow srv db1 id p) = true)
    (h : IdsBelowCounter db ∧ PassengerCountsMatch db) :
    IdsBelowCounter (c.apply srv db) ∧ PassengerCountsMatch (c.apply srv db) := by
  obtain ⟨hids, hm⟩ := h
  cases c with
  | createBooking b =>
    exact ⟨idsBelowCounter_createBooking srv db b hids,
      passengerCountsMatch_createBooking srv db b hids hm (hc b rfl).1 (hc b rfl).2⟩
  | cancelBooking id =>
    exact ⟨idsBelowCounter_map db _ _ (fun r => (cancelBooking_row id r).1) rfl rfl rfl hids,
      passengerCountsMatch_map db _ _ (cancelBooking_row id) rfl rfl hm⟩
  | updatePaymentStatus id s =>
    show IdsBelowCounter (updatePaymentStatus srv db id s).db
      ∧ PassengerCountsMatch (updatePaymentStatus srv db id s).db
    unfold updatePaymentStatus
    split
    · exact ⟨idsBelowCounter_map db _ _
          (fun r => (paymentStatus_row id (srv.label paymentStatusLabels s) r).1) rfl rfl rfl hids,
        passengerCountsMatch_map db _ _
          (paymentStatus_row id (srv.label paymentStatusLabels s)) rfl rfl hm⟩
    · exact ⟨hids, hm⟩

theorem runCalls_preserves_counts (srv : Server) (calls : List Call) :
    ∀ db : Database,
      (∀ b, Call.createBooking b ∈ calls →
        b.numPassengers = b.passengers.length
          ∧ ∀ p ∈ b.passengers, ∀ (db1 : Database) (id : Int),
              srv.insertPassenger (passengerRow srv db1 id p) = true) →
      IdsBelowCounter db ∧ PassengerCountsMatch db →
      IdsBelowCounter (runCalls srv db calls) ∧ PassengerCountsMatch (runCalls srv db calls) := by
  induction calls with
  | nil => intro db _ h; exact h
  | cons c cs ih =>
    intro db hc h
    show IdsBelowCounter (runCalls srv (c.apply srv db) cs) ∧ _
    apply ih
    · intro b hb; exact hc b (List.mem_cons_of_mem _ hb)
    · apply apply_preserves_counts srv db c _ h
      intro b hb
      exact hc b (hb ▸ List.mem_cons_self _ _)

/-- C13 (amended): `createBooking` does not compare `numPassengers` with the length of the
passenger list (`Menu::bookTicket` builds a list of exactly `numPassengers` passengers).
From a state in which the ids stored are below the counter and every stored booking's
`num_passengers` is the number of its passenger rows, every state reached by
`cancelBooking` calls, `updatePaymentStatus` calls and `createBooking` calls whose
`numPassengers` is the length of their passenger list and whose passenger rows the server
accepts has the same property; the object built by `Menu::bookTicket` for a count `≥ 0`
has `numPassengers` equal to the length of its list. -/
theorem passenger_counts_match_along_run (srv : Server) (db : Database) (calls : List Call)
    (hids : IdsBelowCounter db) (hm : PassengerCountsMatch db)
    (hcalls : ∀ b, Call.createBooking b ∈ calls →
      b.numPassengers = b.passengers.length
        ∧ ∀ p ∈ b.passengers, ∀ (db1 : Database) (id : Int),
            srv.insertPassenger (passengerRow srv db1 id p) = true) :
    PassengerCountsMatch (runCalls srv db calls)
      ∧ ∀ (userId : Int) (currentDate : String) (input : BookTicketInput),
          0 ≤ input.numPassengers →
          (bookTicketBooking userId currentDate input).numPassengers
            = (bookTicketBooking userId currentDate input).passengers.length := by
  refine ⟨(runCalls_preserves_counts srv calls db hcalls ⟨hids, hm⟩).2, ?_⟩
  intro userId currentDate input h0
  unfold bookTicketBooking
  simp only [List.length_map, List.length_range]
  omega

theorem matchingCalls_accepted :
    ∀ b, Call.createBooking b ∈ matchingCalls →
      b.numPassengers = b.passengers.length
        ∧ ∀ p ∈ b.passengers, ∀ (db1 : Database) (id : Int),
            schemaServer.insertPassenger (passengerRow schemaServer db1 id p) = true := by
  intro b hb
  simp only [matchingCalls, List.mem_cons, Call.createBooking.injEq, List.mem_singleton,
    List.not_mem_nil, or_false, reduceCtorEq, false_or] at hb
  rcases hb with rfl | rfl
  · refine ⟨by decide, ?_⟩
    intro p hp db1 id
    simp only [requestA, scenarioRequest, List.mem_cons, List.mem_singleton,
      List.not_mem_nil, or_false] at hp
    rcases hp with rfl | rfl <;> rfl
  · refine ⟨by decide, ?_⟩
    intro p hp db1 id
    simp only [requestB, scenarioRequest, List.mem_cons, List.mem_singleton,
      List.not_mem_nil, or_false] at hp
    subst hp
    rfl

/-- Witness of C13 (amended): the scenario calls on the empty two-seat train. -/
theorem passenger_counts_match_along_run_witness :
    IdsBelowCounter scenarioDb ∧ PassengerCountsMatch scenarioDb
      ∧ PassengerCountsMatch (runCalls schemaServer scenarioDb matchingCalls) :=
  ⟨by decide, by decide,
    (passenger_counts_match_along_run schemaServer scenarioDb matchingCalls (by decide)
      (by decide) matchingCalls_accepted).1⟩

/-! ## C17: what createBooking checks -/

/-- C17, as stated, fails: on the empty two-seat train `createBooking` accepts the request
with an empty passenger list and `numPassengers = 0` and stores a booking row for it, and
it accepts the request with a passenger of age `-5` and stores the passenger. -/
theorem createBooking_accepts_invalid_requests :
    emptyRequest.passengers = [] ∧ emptyRequest.numPassengers = 0
      ∧ (createBooking schemaServer scenarioDb emptyRequest).returned = true
      ∧ (createBooking schemaServer scenarioDb emptyRequest).db.bookings.length = 1
      ∧ negativeAgeRequest.passengers.map (fun p => p.age) = [-5]
      ∧ (createBooking schemaServer scenarioDb negativeAgeRequest).returned = true
      ∧ (createBooking schemaServer scenarioDb negativeAgeRequest).db.passengers.map
          (fun p => p.age) = [-5] := by
  decide

theorem bookTicket_refuses_nonpositive (srv : Server) (db : Database) (userId : Int)
    (currentDate : String) (input : BookTicketInput) (h : input.numPassengers ≤ 0) :
    bookTicket srv db userId currentDate input = db := by
  unfold bookTicket
  split
  · rfl
  · split
    · rfl
    · simp only []
      split
      · rfl
      · rw [if_pos (Or.inl h)]

/-- C17 (amended): `createBooking` does not examine the passenger list.  For a request
whose passenger rows the server accepts, it returns `false` exactly when
`getAvailableSeats` is below `numPassengers` or the server refuses the booking row, in
which case the database is unchanged; when it returns `true` the booking row and one row
for every passenger of the list are stored, whatever the length of the list and the ages
are; and its result is the same for any other passenger list whose rows the server
accepts.  The check of the passenger count is in `Menu::bookTicket`, which leaves the
database unchanged when the count typed is `≤ 0`. -/
theorem createBooking_rejects_only_on_seats (srv : Server) (db : Database) (b : Booking)
    (hs : ∀ p ∈ b.passengers, ∀ (db1 : Database) (id : Int),
      srv.insertPassenger (passengerRow srv db1 id p) = true) :
    ((createBooking srv db b).returned = false
        ↔ getAvailableSeats srv db b.trainId b.journeyDate < b.numPassengers
          ∨ srv.insertBooking (storedRow srv db b) = false)
      ∧ ((createBooking srv db b).returned = false → (createBooking srv db b).db = db)
      ∧ ((createBooking srv db b).returned = true →
          (createBooking srv db b).db.bookings = db.bookings ++ [storedRow srv db b]
            ∧ (createBooking srv db b).db.passengers
                = db.passengers
                  ++ insertedPassengerRows srv db.nextPassengerId db.nextBookingId b.passengers)
      ∧ (∀ ps : List Passenger,
          (∀ p ∈ ps, ∀ (db1 : Database) (id : Int),
            srv.insertPassenger (passengerRow srv db1 id p) = true) →
          (createBooking srv db { b with passengers := ps }).returned
            = (createBooking srv db b).returned)
      ∧ (∀ (userId : Int) (currentDate : String) (input : BookTicketInput),
          input.numPassengers ≤ 0 → bookTicket srv db userId currentDate input = db) := by
  have hiff : ∀ b : Booking, (createBooking srv db b).returned = true
      ↔ ¬ getAvailableSeats srv db b.trainId b.journeyDate < b.numPassengers
        ∧ srv.insertBooking (storedRow srv db b) = true := fun b =>
    createBookingFrom_returned srv db b _
  refine ⟨?_, fun h => createBookingFrom_false srv db b _ h,
    fun h => ⟨createBooking_bookings srv db b h, createBooking_passengers_accepted srv db b h hs⟩,
    ?_, fun u c i h => bookTicket_refuses_nonpositive srv db u c i h⟩
  · rw [← Bool.not_eq_true, hiff b]
    constructor
    · intro h
      by_cases hlt : getAvailableSeats srv db b.trainId b.journeyDate < b.numPassengers
      · exact Or.inl hlt
      · right
        cases hs : srv.insertBooking (storedRow srv db b)
        · rfl
        · exact absurd ⟨hlt, hs⟩ h
    · rintro (h | h) ⟨h1, h2⟩
      · exact h1 h
      · rw [h] at h2; exact Bool.noConfusion h2
  · intro ps _
    have h1 := hiff { b with passengers := ps }
    have h2 := hiff b
    have hrow : storedRow srv db { b with passengers := ps } = storedRow srv db b := rfl
    rw [hrow] at h1
    exact Bool.eq_iff_iff.mpr (h1.trans h2.symm)

/-- Witness of C17 (amended): the passenger of age `-5`, whose row the server accepts, is
booked and stored on the empty two-seat train. -/
theorem createBooking_rejects_only_on_seats_witness :
    (∀ p ∈ negativeAgeRequest.passengers, ∀ (db1 : Database) (id : Int),
        schemaServer.insertPassenger (passengerRow schemaServer db1 id p) = true)
      ∧ (createBooking schemaServer scenarioDb negativeAgeRequest).returned = true
      ∧ (createBooking schemaServer scenarioDb negativeAgeRequest).db.passengers
          = scenarioDb.passengers
            ++ insertedPassengerRows schemaServer scenarioDb.nextPassengerId
                scenarioDb.nextBookingId negativeAgeRequest.passengers :=
  ⟨by
      intro p hp db1 id
      simp only [negativeAgeRequest, scenarioRequest, List.mem_singleton] at hp
      subst hp
      rfl,
    by decide,
    ((createBooking_rejects_only_on_seats schemaServer scenarioDb negativeAgeRequest
      (by
        intro p hp db1 id
        simp only [negativeAgeRequest, scenarioRequest, List.mem_singleton] at hp
        subst hp
        rfl)).2.2.1 (by decide)).2⟩

/-! ## C18: filling a train one seat at a time -/

theorem createBookings_length (srv : Server) (reqs : List Booking) :
    ∀ db : Database, (createBookings srv db reqs).1.length = reqs.length := by
  induction reqs with
  | nil => intro db; rfl
  | cons b bs ih => intro db; simp [createBookings, ih]

theorem createBookings_trains (srv : Server) (reqs : List Booking) :
    ∀ db : Database, (createBookings srv db reqs).2.trains = db.trains := by
  induction reqs with
  | nil => intro db; rfl
  | cons b bs ih =>
    intro db
    show (createBookings srv (createBooking srv db b).db bs).2.trains = _
    rw [ih, createBooking_trains]

theorem createBookings_one_seat_each (srv : Server) (t : Train) (d : String)
    (reqs : List Booking)
    (hreq : ∀ b ∈ reqs, b.trainId = t.trainId ∧ srv.date b.journeyDate = srv.date d
      ∧ b.numPassengers = 1
      ∧ srv.label bookingStatusLabels b.bookingStatus = "Confirmed"
      ∧ ∀ db1 : Database, srv.insertBooking (storedRow srv db1 b) = true) :
    ∀ db : Database, TrainKey db → t ∈ db.trains →
      committedSeats srv db t.trainId d ≤ t.totalSeats →
      ((createBookings srv db reqs).1.count true : Int)
          = min (reqs.length : Int) (t.totalSeats - committedSeats srv db t.trainId d)
        ∧ committedSeats srv (createBookings srv db reqs).2 t.trainId d
          = committedSeats srv db t.trainId d
            + min (reqs.length : Int) (t.totalSeats - committedSeats srv db t.trainId d) := by
  induction reqs with
  | nil =>
    intro db _ _ hle
    simp only [createBookings, List.count_nil, List.length_nil, Nat.cast_zero]
    rw [min_eq_left (by omega)]
    omega
  | cons b bs ih =>
    intro db hk ht hle
    obtain ⟨hb1, hb2, hb3, hb4, hb5⟩ := hreq b (List.mem_cons_self _ _)
    have ih1 := ih (fun x hx => hreq x (List.mem_cons_of_mem _ hx)) (createBooking srv db b).db
      (trainKey_createBooking srv db b hk) (by rw [createBooking_trains]; exact ht)
      (committedSeats_createBooking_le srv db b hk t ht d hle)
    have hret : (createBooking srv db b).returned = true
        ↔ committedSeats srv db t.trainId d + 1 ≤ t.totalSeats := by
      unfold createBooking
      rw [createBookingFrom_returned, hb1, hb3, getAvailableSeats_of_mem db t _ hk ht,
        committedSeats_of_same_day db t.trainId d b.journeyDate hb2]
      constructor
      · intro h; have := h.1; omega
      · intro h; exact ⟨by omega, hb5 db⟩
    show (((createBooking srv db b).returned
        :: (createBookings srv (createBooking srv db b).db bs).1).count true : Int) = _
      ∧ committedSeats srv (createBookings srv (createBooking srv db b).db bs).2 t.trainId d = _
    by_cases hroom : committedSeats srv db t.trainId d + 1 ≤ t.totalSeats
    · have hr := hret.mpr hroom
      have hc : committedSeats srv (createBooking srv db b).db t.trainId d
          = committedSeats srv db t.trainId d + 1 := by
        rw [committedSeats_append db _ _ _ _ (createBooking_bookings srv db b hr),
          seatsHeld_storedRow, if_pos ⟨hb1, hb2, hb4⟩, hb3]
      rw [hr, List.count_cons_self, ih1.2, hc]
      rw [hc] at ih1
      push_cast
      rw [ih1.1]
      simp only [List.length_cons, Nat.cast_add, Nat.cast_one]
      constructor
      · rcases le_total (bs.length : Int) (t.totalSeats - (committedSeats srv db t.trainId d + 1))
          with h | h
        · rw [min_eq_left h, min_eq_left (by omega)]
        · rw [min_eq_right h, min_eq_right (by omega)]; omega
      · rcases le_total (bs.length : Int) (t.totalSeats - (committedSeats srv db t.trainId d + 1))
          with h | h
        · rw [min_eq_left h, min_eq_left (by omega)]; omega
        · rw [min_eq_right h, min_eq_right (by omega)]; omega
    · have hr : (createBooking srv db b).returned = false := by
        rw [← Bool.not_eq_true, hret]; exact hroom
      have hdb : (createBooking srv db b).db = db := createBookingFrom_false srv db b _ hr
      rw [hdb] at ih1 ⊢
      rw [hr, List.count_cons_of_ne (by decide), ih1.1, ih1.2]
      simp only [List.length_cons, Nat.cast_add, Nat.cast_one]
      have h0 : t.totalSeats - committedSeats srv db t.trainId d = 0 := by omega
      rw [h0, min_eq_right (by omega), min_eq_right (by omega)]
      exact ⟨rfl, rfl⟩

theorem committedSeats_eq_zero {srv : Server} (db : Database) (k : Int) (d : String)
    (h : ∀ r ∈ db.bookings, ¬ (r.train_id = k ∧ srv.date r.journey_date = srv.date d)) :
    committedSeats srv db k d = 0 := by
  rw [committedSeats_eq_sum]
  apply List.sum_eq_zero
  intro x hx
  obtain ⟨r, hr, rfl⟩ := List.mem_map.mp hx
  unfold seatsHeld
  rw [if_neg]
  intro hc
  simp only [Bool.and_eq_true, beq_iff_eq] at hc
  exact h r hr ⟨hc.1.1, hc.1.2⟩

theorem oneSeatRequests_accepted :
    ∀ b ∈ [requestB, looseRequestB, requestB],
      b.trainId = scenarioTrain.trainId
        ∧ schemaServer.date b.journeyDate = schemaServer.date "2025-04-10"
        ∧ b.numPassengers = 1
        ∧ schemaServer.label bookingStatusLabels b.bookingStatus = "Confirmed"
        ∧ ∀ db1 : Database, schemaServer.insertBooking (storedRow schemaServer db1 b) = true := by
  intro b hb
  simp only [List.mem_cons, List.mem_singleton, List.not_mem_nil, or_false] at hb
  rcases hb with rfl | rfl | rfl
  · exact ⟨rfl, by decide, rfl, by decide, fun _ => rfl⟩
  · exact ⟨rfl, by decide, rfl, by decide, fun _ => rfl⟩
  · exact ⟨rfl, by decide, rfl, by decide, fun _ => rfl⟩

theorem orderByBookingDateDesc_perm (rows : List BookingRow) :
    (orderByBookingDateDesc rows).Perm rows :=
  List.perm_insertionSort _ rows

theorem orderByBookingDateDesc_sorted (rows : List BookingRow) :
    (orderByBookingDateDesc rows).Pairwise (fun a b => b.booking_date ≤ a.booking_date) := by
  haveI : IsTotal BookingRow (fun a b => b.booking_date.toList ≤ a.booking_date.toList) :=
    ⟨fun a b => le_total b.booking_date.toList a.booking_date.toList⟩
  haveI : IsTrans BookingRow (fun a b => b.booking_date.toList ≤ a.booking_date.toList) :=
    ⟨fun _ _ _ h1 h2 => le_trans h2 h1⟩
  have h := List.sorted_insertionSort
    (fun a b : BookingRow => b.booking_date.toList ≤ a.booking_date.toList) rows
  exact List.Pairwise.imp (fun h => String.le_iff_toList_le.mpr h) h

theorem forall2_map_self (l : List BookingRow) (f : BookingRow → BookingRow)
    (R : BookingRow → BookingRow → Prop) (h : ∀ r, R r (f r)) :
    List.Forall₂ R l (l.map f) := by
  induction l with
  | nil => exact List.Forall₂.nil
  | cons x xs ih => exact List.Forall₂.cons (h x) ih

theorem apply_keeps_rows (srv : Server) (db : Database) (c : Call) :
    db.passengers <+: (c.apply srv db).passengers
      ∧ db.bookings.map fixedColumns <+: (c.apply srv db).bookings.map fixedColumns := by
  cases c with
  | createBooking b =>
    show _ <+: (createBooking srv db b).db.passengers
      ∧ _ <+: (createBooking srv db b).db.bookings.map fixedColumns
    cases h : (createBooking srv db b).returned
    · have hdb : (createBooking srv db b).db = db := createBookingFrom_false srv db b _ h
      rw [hdb]
      exact ⟨List.prefix_refl _, List.prefix_refl _⟩
    · obtain ⟨rows, hp, _⟩ := createBooking_passengers srv db b h
      rw [hp, createBooking_bookings srv db b h, List.map_append]
      exact ⟨List.prefix_append _ _, List.prefix_append _ _⟩
  | cancelBooking id =>
    refine ⟨List.prefix_refl _, ?_⟩
    show _ <+: ((db.bookings.map _).map fixedColumns)
    rw [List.map_map]
    have : (fixedColumns ∘ fun r : BookingRow =>
        if r.booking_id == id then { r with booking_status := "Cancelled" } else r)
        = fixedColumns := by
      funext r
      simp only [Function.comp]
      split <;> rfl
    rw [this]
  | updatePaymentStatus id s =>
    show _ <+: (updatePaymentStatus srv db id s).db.passengers
      ∧ _ <+: (updatePaymentStatus srv db id s).db.bookings.map fixedColumns
    unfold updatePaymentStatus
    split
    · refine ⟨List.prefix_refl _, ?_⟩
      show _ <+: ((db.bookings.map _).map fixedColumns)
      rw [List.map_map]
      have : (fixedColumns ∘ fun r : BookingRow =>
          if r.booking_id == id then
            { r with payment_status := srv.label paymentStatusLabels s }
          else r)
          = fixedColumns := by
        funext r
        simp only [Function.comp]
        split <;> rfl
      rw [this]
    · exact ⟨List.prefix_refl _, List.prefix_refl _⟩

/-- C20: `cancelBooking(id)` leaves `trains`, `passengers` and both counters as they are,
and row by row the table `bookings` after the call differs from the table before at most
in `booking_status`, and not at all in rows with another id; `updatePaymentStatus(id, s)`
does the same with `payment_status`.  After any call of `createBooking`, `cancelBooking`
or `updatePaymentStatus`, the passenger rows stored before are still there, and so are the
bookings stored before, with their id, user, train, journey date, passenger count and
fare. -/
theorem mutators_frame (srv : Server) (db : Database) (bookingId : Int) (s : String) :
    ((cancelBooking db bookingId).db.trains = db.trains
        ∧ (cancelBooking db bookingId).db.passengers = db.passengers
        ∧ (cancelBooking db bookingId).db.nextBookingId = db.nextBookingId
        ∧ (cancelBooking db bookingId).db.nextPassengerId = db.nextPassengerId
        ∧ List.Forall₂
            (fun r r1 => { r1 with booking_status := r.booking_status } = r
              ∧ (r.booking_id ≠ bookingId → r1 = r))
            db.bookings (cancelBooking db bookingId).db.bookings)
      ∧ ((updatePaymentStatus srv db bookingId s).db.trains = db.trains
        ∧ (updatePaymentStatus srv db bookingId s).db.passengers = db.passengers
        ∧ (updatePaymentStatus srv db bookingId s).db.nextBookingId = db.nextBookingId
        ∧ (updatePaymentStatus srv db bookingId s).db.nextPassengerId = db.nextPassengerId
        ∧ List.Forall₂
            (fun r r1 => { r1 with payment_status := r.payment_status } = r
              ∧ (r.booking_id ≠ bookingId → r1 = r))
            db.bookings (updatePaymentStatus srv db bookingId s).db.bookings)
      ∧ ∀ c : Call,
          db.passengers <+: (c.apply srv db).passengers
            ∧ db.bookings.map fixedColumns <+: (c.apply srv db).bookings.map fixedColumns := by
  refine ⟨⟨rfl, rfl, rfl, rfl, ?_⟩, ?_, fun c => apply_keeps_rows srv db c⟩
  · apply forall2_map_self
    intro r
    by_cases h : r.booking_id = bookingId
    · subst h; simp
    · simp [h]
  · unfold updatePaymentStatus
    split
    · refine ⟨rfl, rfl, rfl, rfl, ?_⟩
      apply forall2_map_self
      intro r
      by_cases h : r.booking_id = bookingId
      · subst h; simp
      · simp [h]
    · refine ⟨rfl, rfl, rfl, rfl, ?_⟩
      exact List.forall₂_same.mpr (fun r _ => ⟨rfl, fun _ => rfl⟩)

/-- Witness of C20: cancelling booking 2 of `mixedStatusDb` leaves bookings 1 and 3 as
they are. -/
theorem mutators_frame_witness :
    (cancelBooking mixedStatusDb 2).db.passengers = mixedStatusDb.passengers
      ∧ (cancelBooking mixedStatusDb 2).db.bookings.filter (fun r => r.booking_id != 2)
          = mixedStatusDb.bookings.filter (fun r => r.booking_id != 2) :=
  ⟨(mutators_frame schemaServer mixedStatusDb 2 "Paid").1.2.1, by decide⟩

/-! ## C21, C22: terminal statuses -/

theorem apply_row (srv : Server) (db : Database) (c : Call) (i : Nat) (r : BookingRow)
    (h : db.bookings[i]? = some r) :
    ∃ r1 : BookingRow, (c.apply srv db).bookings[i]? = some r1
      ∧ fixedColumns r1 = fixedColumns r
      ∧ (r.booking_status = "Cancelled" → r1.booking_status = "Cancelled")
      ∧ (r.payment_status = "Paid" →
          (∀ (bookingId : Int) (status : String),
            c = Call.updatePaymentStatus bookingId status → status = "Paid") →
          r1.payment_status = "Paid") := by
  cases c with
  | createBooking b =>
    refine ⟨r, ?_, rfl, fun h1 => h1, fun h1 _ => h1⟩
    show (createBooking srv db b).db.bookings[i]? = some r
    cases hret : (createBooking srv db b).returned
    · have hdb : (createBooking srv db b).db = db := createBookingFrom_false srv db b _ hret
      rw [hdb]; exact h
    · rw [createBooking_bookings srv db b hret]
      have hi : i < db.bookings.length := by
        by_contra hc
        rw [List.getElem?_eq_none (by omega)] at h
        exact Option.noConfusion h
      rw [List.getElem?_append_left hi]
      exact h
  | cancelBooking id =>
    refine ⟨if r.booking_id == id then { r with booking_status := "Cancelled" } else r,
      ?_, ?_, ?_, ?_⟩
    · show (db.bookings.map _)[i]? = _
      rw [List.getElem?_map, h]
      rfl
    · split <;> rfl
    · intro h1; split
      · rfl
      · exact h1
    · intro h1 _; split
      · exact h1
      · exact h1
  | updatePaymentStatus id s =>
    show ∃ r1 : BookingRow, (updatePaymentStatus srv db id s).db.bookings[i]? = some r1 ∧ _
    unfold updatePaymentStatus
    split
    · refine ⟨if r.booking_id == id then
          { r with payment_status := srv.label paymentStatusLabels s }
        else r, ?_, ?_, ?_, ?_⟩
      · show (db.bookings.map _)[i]? = _
        rw [List.getElem?_map, h]
        rfl
      · split <;> rfl
      · intro h1; split
        · exact h1
        · exact h1
      · intro h1 hs; split
        · show srv.label paymentStatusLabels s = "Paid"
          rw [hs id s rfl]
          exact label_paid srv
        · exact h1
    · exact ⟨r, h, rfl, fun h1 => h1, fun h1 _ => h1⟩

theorem runCalls_cancelled (srv : Server) (calls : List Call) :
    ∀ (db : Database) (i : Nat) (r : BookingRow), db.bookings[i]? = some r →
      r.booking_status = "Cancelled" →
      ∃ r1 : BookingRow, (runCalls srv db calls).bookings[i]? = some r1
        ∧ fixedColumns r1 = fixedColumns r ∧ r1.booking_status = "Cancelled" := by
  induction calls with
  | nil => intro db i r h hc; exact ⟨r, h, rfl, hc⟩
  | cons c cs ih =>
    intro db i r h hc
    obtain ⟨r1, h1, hf1, hc1, _⟩ := apply_row srv db c i r h
    obtain ⟨r2, h2, hf2, hc2⟩ := ih (c.apply srv db) i r1 h1 (hc1 hc)
    exact ⟨r2, h2, hf2.trans hf1, hc2⟩

theorem runCalls_paid (srv : Server) (calls : List Call) :
    ∀ (db : Database) (i : Nat) (r : BookingRow), OnlyPaid calls →
      db.bookings[i]? = some r → r.payment_status = "Paid" →
      ∃ r1 : BookingRow, (runCalls srv db calls).bookings[i]? = some r1
        ∧ fixedColumns r1 = fixedColumns r ∧ r1.payment_status = "Paid" := by
  induction calls with
  | nil => intro db i r _ h hp; exact ⟨r, h, rfl, hp⟩
  | cons c cs ih =>
    intro db i r hop h hp
    obtain ⟨r1, h1, hf1, _, hp1⟩ := apply_row srv db c i r h
    have hp2 := hp1 hp (fun id s hc => hop id s (hc ▸ List.mem_cons_self _ _))
    obtain ⟨r2, h2, hf2, hp3⟩ := ih (c.apply srv db) i r1
      (fun id s hm => hop id s (List.mem_cons_of_mem _ hm)) h1 hp2
    exact ⟨r2, h2, hf2.trans hf1, hp3⟩

/-- C21: a row of `bookings` whose status is `Cancelled` is, after any sequence of
`createBooking`, `cancelBooking` and `updatePaymentStatus` calls, still at its place in
the table, with the same id, user, train, journey date, passenger count and fare, and with
status `Cancelled`. -/
theorem cancelled_is_terminal (srv : Server) (db : Database) (calls : List Call) (i : Nat)
    (r : BookingRow) (h : db.bookings[i]? = some r) (hc : r.booking_status = "Cancelled") :
    ∃ r1 : BookingRow, (runCalls srv db calls).bookings[i]? = some r1
      ∧ fixedColumns r1 = fixedColumns r ∧ r1.booking_status = "Cancelled" :=
  runCalls_cancelled srv calls db i r h hc

/-- Witness of C21: booking 3 of `mixedStatusDb`, the third row, after four more calls. -/
theorem cancelled_is_terminal_witness :
    (mixedStatusDb.bookings[2]?).map (fun r => (r.booking_id, r.booking_status))
        = some (3, "Cancelled")
      ∧ ∃ r1 : BookingRow,
          (runCalls schemaServer mixedStatusDb laterCalls).bookings[2]? = some r1
            ∧ r1.booking_status = "Cancelled" := by
  refine ⟨by decide, ?_⟩
  obtain ⟨r1, h1, _, h2⟩ := cancelled_is_terminal schemaServer mixedStatusDb laterCalls 2
    { booking_id := 3, user_id := 9, train_id := 1, booking_date := "2025-04-03",
      journey_date := "2025-04-10", num_passengers := 2, total_fare := 100,
      booking_status := "Cancelled", payment_status := "Pending" } (by decide) (by decide)
  exact ⟨r1, h1, h2⟩

/-- C22, as stated, fails: booking 1 of `mixedStatusDb` has payment status `Paid`, and
`updatePaymentStatus(1, "Pending")` returns `true` and sets it back to `Pending`. -/
theorem updatePaymentStatus_unpays :
    (mixedStatusDb.bookings[0]?).map (fun r => (r.booking_id, r.payment_status))
        = some (1, "Paid")
      ∧ (updatePaymentStatus schemaServer mixedStatusDb 1 "Pending").returned = true
      ∧ ((updatePaymentStatus schemaServer mixedStatusDb 1 "Pending").db.bookings[0]?).map
            (fun r => (r.booking_id, r.payment_status))
          = some (1, "Pending") := by
  decide

/-- C22 (amended): a row of `bookings` whose payment status is `Paid` keeps it, at its
place in the table, through any sequence of `createBooking` calls, `cancelBooking` calls
and `updatePaymentStatus` calls whose status argument is `Paid`; `processPayment` is such a
call.  (`updatePaymentStatus` with another status that the server accepts overwrites
it.) -/
theorem paid_is_kept_by_paid_calls (srv : Server) (db : Database) (calls : List Call) (i : Nat)
    (r : BookingRow) (hcalls : OnlyPaid calls) (h : db.bookings[i]? = some r)
    (hp : r.payment_status = "Paid") :
    (∃ r1 : BookingRow, (runCalls srv db calls).bookings[i]? = some r1
        ∧ fixedColumns r1 = fixedColumns r ∧ r1.payment_status = "Paid")
      ∧ ∀ (bookingId : Int) (method : String),
          (processPayment srv db bookingId method).db
            = runCalls srv db [Call.updatePaymentStatus bookingId "Paid"] := by
  refine ⟨runCalls_paid srv calls db i r hcalls h hp, ?_⟩
  intro bookingId method
  unfold processPayment
  split <;> rfl

theorem laterCalls_onlyPaid : OnlyPaid laterCalls := by
  intro id s hm
  simp only [laterCalls, List.mem_cons, reduceCtorEq, Call.updatePaymentStatus.injEq,
    List.mem_singleton, List.not_mem_nil, or_false, false_or] at hm
  exact hm.2

/-- Witness of C22 (amended): booking 1 of `mixedStatusDb`, paid, after four more
calls. -/
theorem paid_is_kept_by_paid_calls_witness :
    OnlyPaid laterCalls
      ∧ (mixedStatusDb.bookings[0]?).map (fun r => (r.booking_id, r.payment_status))
          = some (1, "Paid")
      ∧ ∃ r1 : BookingRow,
          (runCalls schemaServer mixedStatusDb laterCalls).bookings[0]? = some r1
            ∧ r1.payment_status = "Paid" := by
  refine ⟨laterCalls_onlyPaid, by decide, ?_⟩
  obtain ⟨r1, h1, _, h2⟩ := (paid_is_kept_by_paid_calls schemaServer mixedStatusDb laterCalls 0
    { booking_id := 1, user_id := 7, train_id := 1, booking_date := "2025-04-01",
      journey_date := "2025-04-10", num_passengers := 1, total_fare := 50,
      booking_status := "Confirmed", payment_status := "Paid" }
    laterCalls_onlyPaid (by decide) (by decide)).1
  exact ⟨r1, h1, h2⟩

/-! ## C23, C24: committed seats per key -/

/-- C23, as stated, fails: from the empty table `bookings`, `createBooking` with
`numPassengers = -1` is accepted on the two-seat train; the committed seats of the key are
then `-1`, `getAvailableSeats` returns 3, and the stored booking has a count below 1. -/
theorem negative_request_makes_committed_negative :
    scenarioDb.bookings = []
      ∧ (createBooking schemaServer scenarioDb (scenarioRequest (-1) [] "Confirmed")).returned
          = true
      ∧ committedSeats schemaServer
          (createBooking schemaServer scenarioDb (scenarioRequest (-1) [] "Confirmed")).db
          1 "2025-04-10" = -1
      ∧ getAvailableSeats schemaServer
          (createBooking schemaServer scenarioDb (scenarioRequest (-1) [] "Confirmed")).db
          1 "2025-04-10" = 3
      ∧ scenarioTrain.totalSeats = 2
      ∧ ¬ PositiveCounts
          (createBooking schemaServer scenarioDb (scenarioRequest (-1) [] "Confirmed")).db := by
  decide

theorem apply_trains (srv : Server) (db : Database) (c : Call) :
    (c.apply srv db).trains = db.trains := by
  cases c with
  | createBooking b => exact createBooking_trains srv db b
  | cancelBooking id => rfl
  | updatePaymentStatus id s => exact updatePaymentStatus_trains srv db id s

theorem runCalls_trains (srv : Server) (calls : List Call) :
    ∀ db : Database, (runCalls srv db calls).trains = db.trains := by
  induction calls with
  | nil => intro db; rfl
  | cons c cs ih =>
    intro db
    show (runCalls srv (c.apply srv db) cs).trains = _
    rw [ih, apply_trains]

theorem apply_positiveCounts (srv : Server) (db : Database) (c : Call)
    (hc : ∀ b, c = Call.createBooking b → 1 ≤ b.numPassengers) (h : PositiveCounts db) :
    PositiveCounts (c.apply srv db) := by
  cases c with
  | createBooking b =>
    show PositiveCounts (createBooking srv db b).db
    cases hret : (createBooking srv db b).returned
    · have hdb : (createBooking srv db b).db = db := createBookingFrom_false srv db b _ hret
      rw [hdb]; exact h
    · intro r hr
      rw [createBooking_bookings srv db b hret] at hr
      rcases List.mem_append.mp hr with hr | hr
      · exact h r hr
      · rw [List.mem_singleton.mp hr]
        exact hc b rfl
  | cancelBooking id =>
    intro r hr
    obtain ⟨r0, hr0, rfl⟩ := List.mem_map.mp hr
    rw [(cancelBooking_row id r0).2]
    exact h r0 hr0
  | updatePaymentStatus id s =>
    show PositiveCounts (updatePaymentStatus srv db id s).db
    unfold updatePaymentStatus
    split
    · intro r hr
      obtain ⟨r0, hr0, rfl⟩ := List.mem_map.mp hr
      rw [(paymentStatus_row id (srv.label paymentStatusLabels s) r0).2]
      exact h r0 hr0
    · exact h

theorem runCalls_positiveCounts (srv : Server) (calls : List Call) :
    ∀ db : Database, (∀ b, Call.createBooking b ∈ calls → 1 ≤ b.numPassengers) →
      PositiveCounts db → PositiveCounts (runCalls srv db calls) := by
  induction calls with
  | nil => intro db _ h; exact h
  | cons c cs ih =>
    intro db hc h
    show PositiveCounts (runCalls srv (c.apply srv db) cs)
    apply ih
    · intro b hb; exact hc b (List.mem_cons_of_mem _ hb)
    · apply apply_positiveCounts srv db c _ h
      intro b hb
      exact hc b (hb ▸ List.mem_cons_self _ _)

theorem committedSeats_nonneg {srv : Server} (db : Database) (h : PositiveCounts db) (k : Int) (d : String) :
    0 ≤ committedSeats srv db k d := by
  rw [committedSeats_eq_sum]
  apply List.sum_nonneg
  intro x hx
  obtain ⟨r, hr, rfl⟩ := List.mem_map.mp hx
  apply seatsHeld_nonneg
  have := h r hr
  omega

/-- C23 (amended): in every database state reached from an empty table `bookings` by
`cancelBooking` calls, `updatePaymentStatus` calls and `createBooking` calls whose
`numPassengers` is `≥ 1` (the only ones `Menu::bookTicket` makes), every stored booking has
`num_passengers ≥ 1`, the committed seats of every train id and journey date are `≥ 0`,
and `getAvailableSeats` does not exceed the `totalSeats` of any train of the table. -/
theorem committed_seats_nonnegative (srv : Server) (db : Database) (calls : List Call)
    (hk : TrainKey db) (hempty : db.bookings = [])
    (hcalls : ∀ b, Call.createBooking b ∈ calls → 1 ≤ b.numPassengers) :
    (∀ r ∈ (runCalls srv db calls).bookings, 1 ≤ r.num_passengers)
      ∧ (∀ (k : Int) (d : String), 0 ≤ committedSeats srv (runCalls srv db calls) k d)
      ∧ (∀ t ∈ db.trains, ∀ d : String,
          getAvailableSeats srv (runCalls srv db calls) t.trainId d ≤ t.totalSeats) := by
  have h0 : PositiveCounts db := by
    intro r hr
    rw [hempty] at hr
    exact absurd hr (List.not_mem_nil _)
  have hpos := runCalls_positiveCounts srv calls db hcalls h0
  refine ⟨hpos, @committedSeats_nonneg srv _ hpos, ?_⟩
  intro t ht d
  have hk1 : TrainKey (runCalls srv db calls) := by
    unfold TrainKey; rw [runCalls_trains]; exact hk
  rw [getAvailableSeats_of_mem _ t d hk1 (by rw [runCalls_trains]; exact ht)]
  have := @committedSeats_nonneg srv _ hpos t.trainId d
  omega

theorem scenarioCalls_positive :
    ∀ b, Call.createBooking b ∈ scenarioCalls → 1 ≤ b.numPassengers := by
  intro b hb
  simp only [scenarioCalls, List.mem_cons, Call.createBooking.injEq, List.mem_singleton,
    List.not_mem_nil, or_false, reduceCtorEq, false_or] at hb
  rcases hb with rfl | rfl | rfl <;> decide

/-- Witness of C23 (amended): the scenario run from the empty table. -/
theorem committed_seats_nonnegative_witness :
    TrainKey scenarioDb ∧ scenarioDb.bookings = []
      ∧ (∀ b, Call.createBooking b ∈ scenarioCalls → 1 ≤ b.numPassengers)
      ∧ 0 ≤ committedSeats schemaServer (runCalls schemaServer scenarioDb scenarioCalls) 1 "2025-04-10" :=
  ⟨by decide, rfl, scenarioCalls_positive,
    (committed_seats_nonnegative schemaServer scenarioDb scenarioCalls (by decide) rfl
      scenarioCalls_positive).2.1 1 "2025-04-10"⟩

theorem getAvailableSeats_congr {srv : Server} (db db1 : Database) (k : Int) (d : String)
    (hk : TrainKey db) (ht : db1.trains = db.trains)
    (hc : committedSeats srv db1 k d = committedSeats srv db k d) :
    getAvailableSeats srv db1 k d = getAvailableSeats srv db k d := by
  have hk1 : TrainKey db1 := by unfold TrainKey; rw [ht]; exact hk
  by_cases h : ∃ t ∈ db.trains, t.trainId = k
  · obtain ⟨t, htm, rfl⟩ := h
    rw [getAvailableSeats_of_mem db t d hk htm,
      getAvailableSeats_of_mem db1 t d hk1 (by rw [ht]; exact htm), hc]
  · rw [getAvailableSeats_of_not_mem db k d (fun t htm heq => h ⟨t, htm, heq⟩),
      getAvailableSeats_of_not_mem db1 k d
        (fun t htm heq => h ⟨t, by rw [← ht]; exact htm, heq⟩)]

theorem seatsHeld_other_key {srv : Server} (k : Int) (d : String) (r : BookingRow)
    (h : k ≠ r.train_id ∨ srv.date d ≠ srv.date r.journey_date) : seatsHeld srv k d r = 0 := by
  unfold seatsHeld
  rw [if_neg]
  intro hc
  simp only [Bool.and_eq_true, beq_iff_eq] at hc
  rcases h with h | h
  · exact h hc.1.1.symm
  · exact h hc.1.2.symm

theorem getAvailableSeats_of_same_day {srv : Server} (db : Database) (k : Int) (d e : String)
    (h : srv.date e = srv.date d) :
    getAvailableSeats srv db k e = getAvailableSeats srv db k d := by
  have hj : joinCondition srv e = joinCondition srv d := by
    funext t b
    unfold joinCondition
    rw [h]
  unfold getAvailableSeats availableSeatsQuery leftJoin joinedRows
  rw [hj]

theorem availableSeatsQuery_of_not_mem {srv : Server} (db : Database) (k : Int) (d : String)
    (h : ∀ t ∈ db.trains, t.trainId ≠ k) : availableSeatsQuery srv db k d = [] := by
  unfold availableSeatsQuery leftJoin
  simp only []
  rw [filter_leftJoin_of_not_mem db.trains db.bookings d k h]
  rfl

theorem totalSeatsQuery_of_not_mem (db : Database) (k : Int)
    (h : ∀ t ∈ db.trains, t.trainId ≠ k) : totalSeatsQuery db k = [] := by
  unfold totalSeatsQuery
  rw [List.map_eq_nil_iff, List.filter_eq_nil_iff]
  intro t ht
  simpa using h t ht

/-- C25: for a train id that no row of `trains` carries, both queries of
`getAvailableSeats` return no row and the method returns 0, whatever the journey date, so
`createBooking` returns `false` for every request with `numPassengers ≥ 1` on such a train;
for a train of the table (train ids being unique) the first query returns a row, so the
second query is not reached. -/
theorem getAvailableSeats_unknown_train (srv : Server) (db : Database) :
    (∀ (k : Int) (d : String), (∀ t ∈ db.trains, t.trainId ≠ k) →
        availableSeatsQuery srv db k d = [] ∧ totalSeatsQuery db k = []
          ∧ getAvailableSeats srv db k d = 0)
      ∧ (∀ (b : Booking), (∀ t ∈ db.trains, t.trainId ≠ b.trainId) →
          1 ≤ b.numPassengers →
          (createBooking srv db b).returned = false ∧ (createBooking srv db b).db = db)
      ∧ (TrainKey db → ∀ t ∈ db.trains, ∀ d : String,
          availableSeatsQuery srv db t.trainId d ≠ []) := by
  refine ⟨?_, ?_, ?_⟩
  · intro k d h
    exact ⟨availableSeatsQuery_of_not_mem db k d h, totalSeatsQuery_of_not_mem db k h,
      getAvailableSeats_of_not_mem db k d h⟩
  · intro b h hn
    have hlt : getAvailableSeats srv db b.trainId b.journeyDate < b.numPassengers := by
      rw [getAvailableSeats_of_not_mem db _ _ h]; omega
    have hshort := createBookingFrom_short srv db b _ hlt
    unfold createBooking
    rw [hshort]
    exact ⟨rfl, rfl⟩
  · intro hk t ht d
    rw [availableSeatsQuery_of_mem db t d hk ht]
    exact List.cons_ne_nil _ _

/-- Witness of C25: train 9 is not in the table of the scenario, so requests for it are
refused; train 1 is, and the first query answers. -/
theorem getAvailableSeats_unknown_train_witness :
    (∀ t ∈ scenarioDb.trains, t.trainId ≠ 9)
      ∧ getAvailableSeats schemaServer scenarioDb 9 "2025-04-10" = 0
      ∧ (createBooking schemaServer scenarioDb { requestB with trainId := 9 }).returned = false
      ∧ TrainKey scenarioDb
      ∧ availableSeatsQuery schemaServer scenarioDb 1 "2025-04-10" ≠ [] :=
  ⟨by decide,
    ((getAvailableSeats_unknown_train schemaServer scenarioDb).1 9 "2025-04-10"
      (by decide)).2.2,
    ((getAvailableSeats_unknown_train schemaServer scenarioDb).2.1
      { requestB with trainId := 9 } (by decide) (by decide)).1,
    by decide,
    (getAvailableSeats_unknown_train schemaServer scenarioDb).2.2 (by decide) scenarioTrain
      (by decide) "2025-04-10"⟩

theorem mem_getUserBookings (db : Database) (u : Int) (g : Booking) :
    g ∈ getUserBookings db u ↔ ∃ r ∈ db.bookings, r.user_id = u ∧ g = bookingOfRow db r := by
  unfold getUserBookings
  rw [List.mem_map]
  constructor
  · rintro ⟨r, hr, rfl⟩
    have hr1 := (orderByBookingDateDesc_perm _).mem_iff.mp hr
    rw [List.mem_filter] at hr1
    exact ⟨r, hr1.1, beq_iff_eq.mp hr1.2, rfl⟩
  · rintro ⟨r, hr, hu, rfl⟩
    refine ⟨r, (orderByBookingDateDesc_perm _).mem_iff.mpr ?_, rfl⟩
    rw [List.mem_filter]
    exact ⟨hr, beq_iff_eq.mpr hu⟩

theorem menuCancel_found_iff (db : Database) (u : Int) (id : Int) :
    (getUserBookings db u).any (fun booking =>
        booking.bookingId == id && booking.bookingStatus != "Cancelled") = true
      ↔ ∃ r ∈ db.bookings, r.user_id = u ∧ r.booking_id = id
          ∧ r.booking_status ≠ "Cancelled" := by
  rw [List.any_eq_true]
  constructor
  · rintro ⟨g, hg, hcond⟩
    obtain ⟨r, hr, hu, rfl⟩ := (mem_getUserBookings db u g).mp hg
    simp only [Bool.and_eq_true, beq_iff_eq, bne_iff_ne, ne_eq] at hcond
    exact ⟨r, hr, hu, hcond.1, hcond.2⟩
  · rintro ⟨r, hr, hu, hid, hst⟩
    refine ⟨bookingOfRow db r, (mem_getUserBookings db u _).mpr ⟨r, hr, hu, rfl⟩, ?_⟩
    simp only [Bool.and_eq_true, beq_iff_eq, bne_iff_ne, ne_eq]
    exact ⟨hid, hst⟩

/-- C26: `Menu::cancelBooking` calls `BookingManager::cancelBooking` exactly when the id
typed is not 0, some booking of the logged-in user has that id and a status other than
`Cancelled`, and the answer is `y` or `Y`; it then leaves the database that
`BookingManager::cancelBooking` leaves.  In every other case the database is unchanged, so
a changed database implies the three conditions. -/
theorem menuCancelBooking_guard (db : Database) (userId : Int) (input : CancelBookingInput) :
    ((menuCancelBooking db userId input).cancelCalled = true
        ↔ input.bookingId ≠ 0
          ∧ (∃ r ∈ db.bookings, r.user_id = userId ∧ r.booking_id = input.bookingId
              ∧ r.booking_status ≠ "Cancelled")
          ∧ (input.confirm = "y" ∨ input.confirm = "Y"))
      ∧ ((menuCancelBooking db userId input).cancelCalled = true →
          (menuCancelBooking db userId input).db = (cancelBooking db input.bookingId).db)
      ∧ ((menuCancelBooking db userId input).cancelCalled = false →
          (menuCancelBooking db userId input).db = db)
      ∧ ((menuCancelBooking db userId input).db ≠ db →
          input.bookingId ≠ 0
            ∧ (∃ r ∈ db.bookings, r.user_id = userId ∧ r.booking_id = input.bookingId
                ∧ r.booking_status ≠ "Cancelled")
            ∧ (input.confirm = "y" ∨ input.confirm = "Y")) := by
  have hfound := menuCancel_found_iff db userId input.bookingId
  have key : ((menuCancelBooking db userId input).cancelCalled = true
        ↔ input.bookingId ≠ 0
          ∧ (∃ r ∈ db.bookings, r.user_id = userId ∧ r.booking_id = input.bookingId
              ∧ r.booking_status ≠ "Cancelled")
          ∧ (input.confirm = "y" ∨ input.confirm = "Y"))
      ∧ ((menuCancelBooking db userId input).cancelCalled = true →
          (menuCancelBooking db userId input).db = (cancelBooking db input.bookingId).db)
      ∧ ((menuCancelBooking db userId input).cancelCalled = false →
          (menuCancelBooking db userId input).db = db) := by
    unfold menuCancelBooking
    simp only []
    by_cases hempty : (getUserBookings db userId).isEmpty = true
    · rw [if_pos hempty]
      refine ⟨⟨fun h => Bool.noConfusion h, ?_⟩, fun h => Bool.noConfusion h, fun _ => rfl⟩
      rintro ⟨_, hex, _⟩
      obtain ⟨g, hg, _⟩ := List.any_eq_true.mp (hfound.mpr hex)
      rw [List.isEmpty_iff.mp hempty] at hg
      exact absurd hg (List.not_mem_nil _)
    · rw [if_neg hempty]
      by_cases hzero : input.bookingId = 0
      · rw [if_pos hzero]
        exact ⟨⟨fun h => Bool.noConfusion h, fun h => absurd hzero h.1⟩,
          fun h => Bool.noConfusion h, fun _ => rfl⟩
      · rw [if_neg hzero]
        by_cases hf : (getUserBookings db userId).any (fun booking =>
            booking.bookingId == input.bookingId && booking.bookingStatus != "Cancelled") = true
        · rw [hf]
          rw [if_neg (by decide : ¬ ((!true) = true))]
          by_cases hy : input.confirm = "y" ∨ input.confirm = "Y"
          · rw [if_pos hy]
            exact ⟨⟨fun _ => ⟨hzero, hfound.mp hf, hy⟩, fun _ => rfl⟩, fun _ => rfl,
              fun h => Bool.noConfusion h⟩
          · rw [if_neg hy]
            exact ⟨⟨fun h => Bool.noConfusion h, fun h => absurd h.2.2 hy⟩,
              fun h => Bool.noConfusion h, fun _ => rfl⟩
        · have hf1 : (getUserBookings db userId).any (fun booking =>
              booking.bookingId == input.bookingId && booking.bookingStatus != "Cancelled")
              = false := by simpa using hf
          rw [hf1]
          rw [if_pos (by decide : (!false) = true)]
          exact ⟨⟨fun h => Bool.noConfusion h, fun h => absurd (hfound.mpr h.2.1) hf⟩,
            fun h => Bool.noConfusion h, fun _ => rfl⟩
  refine ⟨key.1, key.2.1, key.2.2, ?_⟩
  intro hne
  apply key.1.mp
  cases hc : (menuCancelBooking db userId input).cancelCalled
  · exact absurd (key.2.2 hc) hne
  · rfl

/-- Witness of C26: in `datedDb` user 7 cancels booking 2 with `y`; with the id of user
8's booking, with the cancelled booking 4, with id 0 or with the answer `n` nothing
changes. -/
theorem menuCancelBooking_guard_witness :
    (menuCancelBooking datedDb 7 { bookingId := 2, confirm := "y" }).cancelCalled = true
      ∧ (menuCancelBooking datedDb 7 { bookingId := 2, confirm := "y" }).db
          = (cancelBooking datedDb 2).db
      ∧ (menuCancelBooking datedDb 7 { bookingId := 3, confirm := "y" }).db = datedDb
      ∧ (menuCancelBooking datedDb 7 { bookingId := 4, confirm := "y" }).db = datedDb
      ∧ (menuCancelBooking datedDb 7 { bookingId := 0, confirm := "y" }).db = datedDb
      ∧ (menuCancelBooking datedDb 7 { bookingId := 2, confirm := "n" }).db = datedDb :=
  ⟨by decide,
    (menuCancelBooking_guard datedDb 7 { bookingId := 2, confirm := "y" }).2.1 (by decide),
    (menuCancelBooking_guard datedDb 7 { bookingId := 3, confirm := "y" }).2.2.1 (by decide),
    (menuCancelBooking_guard datedDb 7 { bookingId := 4, confirm := "y" }).2.2.1 (by decide),
    (menuCancelBooking_guard datedDb 7 { bookingId := 0, confirm := "y" }).2.2.1 (by decide),
    (menuCancelBooking_guard datedDb 7 { bookingId := 2, confirm := "n" }).2.2.1 (by decide)⟩

/-! ## C27: the format of the booking date -/

theorem toDigitsCore_small (fuel n : Nat) (ds : List Char) (hf : 0 < fuel) (hn : n < 10) :
    Nat.toDigitsCore 10 fuel n ds = Nat.digitChar n :: ds := by
  cases fuel with
  | zero => omega
  | succ f =>
    unfold Nat.toDigitsCore
    have h1 : n / 10 = 0 := by omega
    have h2 : n % 10 = n := by omega
    simp only [h1, h2, if_true]

theorem toDigitsCore_step (fuel n : Nat) (ds : List Char) (hf : 0 < fuel) (hn : 10 ≤ n) :
    Nat.toDigitsCore 10 fuel n ds
      = Nat.toDigitsCore 10 (fuel - 1) (n / 10) (Nat.digitChar (n % 10) :: ds) := by
  cases fuel with
  | zero => omega
  | succ f =>
    have h1 : ¬ n / 10 = 0 := by omega
    rw [Nat.add_sub_cancel]
    conv_lhs => unfold Nat.toDigitsCore
    simp only [h1, if_false]

theorem repr_one_digit (n : Nat) (hn : n < 10) : (Nat.repr n).data = [Nat.digitChar n] := by
  show Nat.toDigitsCore 10 (n + 1) n [] = _
  exact toDigitsCore_small _ _ _ (by omega) hn

theorem repr_two_digits (n : Nat) (h1 : 10 ≤ n) (h2 : n < 100) :
    (Nat.repr n).data = [Nat.digitChar (n / 10), Nat.digitChar (n % 10)] := by
  show Nat.toDigitsCore 10 (n + 1) n [] = _
  rw [toDigitsCore_step _ _ _ (by omega) h1, toDigitsCore_small _ _ _ (by omega) (by omega)]

theorem repr_four_digits (n : Nat) (h1 : 1000 ≤ n) (h2 : n < 10000) :
    (Nat.repr n).data
      = [Nat.digitChar (n / 10 / 10 / 10), Nat.digitChar (n / 10 / 10 % 10),
          Nat.digitChar (n / 10 % 10), Nat.digitChar (n % 10)] := by
  show Nat.toDigitsCore 10 (n + 1) n [] = _
  rw [toDigitsCore_step _ _ _ (by omega) (by omega),
    toDigitsCore_step _ _ _ (by omega) (by omega),
    toDigitsCore_step _ _ _ (by omega) (by omega),
    toDigitsCore_small _ _ _ (by omega) (by omega)]

theorem cons_lt_cons_iff (a b : Char) (l1 l2 : List Char) :
    a :: l1 < b :: l2 ↔ a < b ∨ (a = b ∧ l1 < l2) := by
  constructor
  · intro h
    cases h with
    | rel h => exact Or.inl h
    | cons h => exact Or.inr ⟨rfl, h⟩
  · rintro (h | ⟨rfl, h⟩)
    · exact List.Lex.rel h
    · exact List.Lex.cons h

theorem digitChar_lt_iff (i j : Nat) (hi : i < 10) (hj : j < 10) :
    Nat.digitChar i < Nat.digitChar j ↔ i < j := by
  interval_cases i <;> interval_cases j <;> decide

theorem digitChar_eq_iff (i j : Nat) (hi : i < 10) (hj : j < 10) :
    Nat.digitChar i = Nat.digitChar j ↔ i = j := by
  interval_cases i <;> interval_cases j <;> decide

theorem toString_natCast (n : Nat) : toString ((n : Nat) : Int) = Nat.repr n := rfl

theorem padded_two_digits (k : Nat) (hk : k < 100) :
    (if (toString ((k : Nat) : Int)).length = 1 then "0" ++ toString ((k : Nat) : Int)
      else toString ((k : Nat) : Int)).data
      = [Nat.digitChar (k / 10), Nat.digitChar (k % 10)] := by
  rw [toString_natCast]
  by_cases h : k < 10
  · have hd := repr_one_digit k h
    have hl : (Nat.repr k).length = 1 := by rw [← String.length_data, hd]; rfl
    rw [if_pos hl, String.data_append, hd]
    have h1 : k / 10 = 0 := by omega
    have h2 : k % 10 = k := by omega
    rw [h1, h2]
    rfl
  · have hd := repr_two_digits k (by omega) hk
    have hl : ¬ (Nat.repr k).length = 1 := by
      rw [← String.length_data, hd]
      intro hc
      exact absurd hc (by decide : ¬ (2 : Nat) = 1)
    rw [if_neg hl, hd]

theorem getCurrentDate_data (y m d : Int) (Y M D : Nat) (hY : 1900 + y = Y) (hM : 1 + m = M)
    (hD : d = D) (hY1 : 1000 ≤ Y) (hY2 : Y < 10000) (hM2 : M < 100) (hD2 : D < 100) :
    (getCurrentDate y m d).data = dateChars Y M D := by
  unfold getCurrentDate
  simp only []
  rw [hY, hM, hD]
  simp only [String.data_append]
  rw [padded_two_digits M hM2, padded_two_digits D hD2, toString_natCast,
    repr_four_digits Y hY1 hY2]
  rfl

theorem dateChars_lt_iff (y1 m1 d1 y2 m2 d2 : Nat) (hy1 : y1 < 10000) (hm1 : m1 < 100)
    (hd1 : d1 < 100) (hy2 : y2 < 10000) (hm2 : m2 < 100) (hd2 : d2 < 100) :
    dateChars y1 m1 d1 < dateChars y2 m2 d2
      ↔ y1 < y2 ∨ (y1 = y2 ∧ (m1 < m2 ∨ (m1 = m2 ∧ d1 < d2))) := by
  unfold dateChars
  simp only [cons_lt_cons_iff]
  rw [digitChar_lt_iff _ _ (by omega) (by omega), digitChar_eq_iff _ _ (by omega) (by omega),
    digitChar_lt_iff _ _ (by omega) (by omega), digitChar_eq_iff _ _ (by omega) (by omega),
    digitChar_lt_iff _ _ (by omega) (by omega), digitChar_eq_iff _ _ (by omega) (by omega),
    digitChar_lt_iff _ _ (by omega) (by omega), digitChar_eq_iff _ _ (by omega) (by omega),
    digitChar_lt_iff _ _ (by omega) (by omega), digitChar_eq_iff _ _ (by omega) (by omega),
    digitChar_lt_iff _ _ (by omega) (by omega), digitChar_eq_iff _ _ (by omega) (by omega),
    digitChar_lt_iff _ _ (by omega) (by omega), digitChar_eq_iff _ _ (by omega) (by omega),
    digitChar_lt_iff _ _ (by omega) (by omega), digitChar_eq_iff _ _ (by omega) (by omega)]
  have hnil : ¬ (([] : List Char) < []) := lt_irrefl _
  have hdash : ¬ ('-' < '-') := lt_irrefl _
  simp only [hnil, hdash, and_false, or_false, false_or, true_and]
  omega

theorem getCurrentDate_valid (y m d : Int) (h : ValidTime y m d) :
    (getCurrentDate y m d).data = dateChars (1900 + y).toNat (1 + m).toNat d.toNat := by
  obtain ⟨hyLow, hyHigh, hmLow, hmHigh, hdLow, hdHigh⟩ := h
  exact getCurrentDate_data y m d _ _ _ (by omega) (by omega) (by omega) (by omega) (by omega)
    (by omega) (by omega)

/-- C27: for a broken-down time with a four-digit year, `tm_mon` in 0..11 and `tm_mday` in
1..31, `getCurrentDate` returns the ten characters `YYYY-MM-DD`, month and day padded with
a zero to two digits; on two such dates the order of the strings is the order of the days,
and the comparison that `ORDER BY booking_date DESC` makes puts a date before another
exactly when it is not the earlier day. -/
theorem getCurrentDate_order (y1 m1 d1 y2 m2 d2 : Int) (h1 : ValidTime y1 m1 d1)
    (h2 : ValidTime y2 m2 d2) :
    (getCurrentDate y1 m1 d1).length = 10
      ∧ (getCurrentDate y1 m1 d1).data
          = dateChars (1900 + y1).toNat (1 + m1).toNat d1.toNat
      ∧ (getCurrentDate y1 m1 d1 < getCurrentDate y2 m2 d2
          ↔ EarlierDay y1 m1 d1 y2 m2 d2)
      ∧ ((getCurrentDate y2 m2 d2).toList ≤ (getCurrentDate y1 m1 d1).toList
          ↔ ¬ EarlierDay y1 m1 d1 y2 m2 d2) := by
  have hd1 := getCurrentDate_valid y1 m1 d1 h1
  have hd2 := getCurrentDate_valid y2 m2 d2 h2
  obtain ⟨a1, a2, a3, a4, a5, a6⟩ := h1
  obtain ⟨b1, b2, b3, b4, b5, b6⟩ := h2
  have hlt : (getCurrentDate y1 m1 d1).toList < (getCurrentDate y2 m2 d2).toList
      ↔ EarlierDay y1 m1 d1 y2 m2 d2 := by
    show (getCurrentDate y1 m1 d1).data < (getCurrentDate y2 m2 d2).data ↔ _
    rw [hd1, hd2, dateChars_lt_iff _ _ _ _ _ _ (by omega) (by omega) (by omega) (by omega)
      (by omega) (by omega)]
    unfold EarlierDay
    omega
  refine ⟨?_, hd1, ?_, ?_⟩
  · rw [← String.length_data, hd1]
    rfl
  · rw [String.lt_iff_toList_lt]
    exact hlt
  · rw [← not_lt, hlt]

/-- Witness of C27: 1 April 2025 and 10 April 2025. -/
theorem getCurrentDate_order_witness :
    ValidTime 125 3 1 ∧ ValidTime 125 3 10
      ∧ getCurrentDate 125 3 1 = "2025-04-01"
      ∧ getCurrentDate 125 3 10 = "2025-04-10"
      ∧ (getCurrentDate 125 3 1 < getCurrentDate 125 3 10 ↔ EarlierDay 125 3 1 125 3 10) :=
  ⟨by decide, by decide, by decide, by decide,
    (getCurrentDate_order 125 3 1 125 3 10 (by decide) (by decide)).2.2.1⟩

end Railway
